import Mathlib

/-!
Verification development for the request-execution and response-validation
engine of the gpt-load proxy (package `internal/proxy`).

Go strings are modelled as lists of runes (`List Char`); the Go byte length
of a string is recovered via UTF-8 sizes (`goByteLen`), so the distinction
between `len(s)` (bytes) and `len([]rune(s))` (code points) made by the
source is preserved.  Each definition is a direct translation of the Go
function of the same name.
-/

set_option autoImplicit false
set_option linter.unusedVariables false

namespace GptLoad

/-- Go strings, modelled as their sequence of runes. -/
abbrev Str := List Char

/-- Convert a Lean string literal to the model type. -/
def str (s : String) : Str := s.toList

/-- Model of `unicode.IsSpace`, used by `strings.TrimSpace`: the Unicode white-space
runes (Latin-1 plus the `White_Space` property code points). -/
def goIsSpace (c : Char) : Bool :=
  let n := c.toNat
  n == 0x20 || n == 0x09 || n == 0x0a || n == 0x0b || n == 0x0c || n == 0x0d ||
  n == 0x85 || n == 0xA0 || n == 0x1680 ||
  (decide (0x2000 ≤ n) && decide (n ≤ 0x200A)) ||
  n == 0x2028 || n == 0x2029 || n == 0x202F || n == 0x205F || n == 0x3000

/-- Model of `strings.TrimSpace`: drop white space from both ends. -/
def trimSpaceGo (l : Str) : Str :=
  ((l.dropWhile goIsSpace).reverse.dropWhile goIsSpace).reverse

/-- Model of `strings.HasPrefix pat l` reordered: `isPrefixB pat l` is true when
`pat` starts `l`. -/
def isPrefixB : Str → Str → Bool
  | [], _ => true
  | _ :: _, [] => false
  | p :: ps, c :: cs => p == c && isPrefixB ps cs

/-- Model of `strings.HasSuffix`: `endsWithB pat l` is true when `pat` ends `l`. -/
def endsWithB (pat l : Str) : Bool := isPrefixB pat.reverse l.reverse

/-- Model of `strings.Contains l pat`. -/
def containsB : Str → Str → Bool
  | [], pat => isPrefixB pat []
  | c :: cs, pat => isPrefixB pat (c :: cs) || containsB cs pat

/-- Model of `strings.TrimPrefix l pat`. -/
def trimPrefixB (l pat : Str) : Str :=
  if isPrefixB pat l then l.drop pat.length else l

/-- Model of `strings.TrimSuffix l pat`. -/
def trimSuffixB (l pat : Str) : Str :=
  if endsWithB pat l then l.take (l.length - pat.length) else l

/-- Go byte length of a string (`len(s)` on the UTF-8 encoding). -/
def goByteLen (l : Str) : Nat := (l.map Char.utf8Size).sum

/-- Model of `strings.Split l sep` for a one-rune separator. -/
def splitOnChar (sep : Char) : Str → List Str
  | [] => [[]]
  | c :: cs =>
    match splitOnChar sep cs with
    | [] => [[]]
    | h :: t => if c == sep then [] :: h :: t else (c :: h) :: t

/-- ASCII lowering, the fragment of `strings.ToLower` exercised by the
validator (all-ASCII) reason constants. -/
def lowerChar (c : Char) : Char :=
  if decide (0x41 ≤ c.toNat) && decide (c.toNat ≤ 0x5A) then Char.ofNat (c.toNat + 0x20) else c

def lowerStr (s : Str) : Str := s.map lowerChar

/-- Model of `CompletionToken`: the completion sentinel literal. -/
def CompletionToken : Str := str ("[done]")

/-! ### The decoded-JSON value model

`json.Unmarshal` into `map[string]interface{}` yields nested maps, slices,
strings, numbers, booleans and null; `GoValue` mirrors that shape, with maps
as association lists looked up by key.  `json.Unmarshal` and `json.Marshal`
themselves are external library calls and enter the model as an oracle
(`Externals`), like the other external collaborators. -/

inductive GoValue where
  | vNull
  | vBool (b : Bool)
  | vNum (n : Int)
  | vStr (s : Str)
  | vArr (elems : List GoValue)
  | vObj (fields : List (Str × GoValue))

/-- A decoded `map[string]interface{}`. -/
abbrev GoObj := List (Str × GoValue)

def getField : GoObj → Str → Option GoValue
  | [], _ => none
  | (k, v) :: rest, key => if k == key then some v else getField rest key

/-- Map assignment `m[k] = v`: replace the binding or add it. -/
def setField : GoObj → Str → GoValue → GoObj
  | [], key, v => [(key, v)]
  | (k, w) :: rest, key, v =>
    if k == key then (key, v) :: rest else (k, w) :: setField rest key v

/-- The type assertion `x.([]interface{})`. -/
def asArr : GoValue → Option (List GoValue)
  | .vArr l => some l
  | _ => none

/-- The type assertion `x.(map[string]interface{})`. -/
def asObj : GoValue → Option GoObj
  | .vObj f => some f
  | _ => none

/-- The type assertion `x.(string)`. -/
def asStr : GoValue → Option Str
  | .vStr s => some s
  | _ => none

/-- External library and collaborator functions used by the engine:
JSON decoding/encoding and upstream error-body parsing. -/
structure Externals where
  unmarshal : Str → Option GoObj
  marshal : GoObj → Str
  parseUpstreamErr : Str → Str

/-- Model of `ValidationResult` from `response_validator.go`. -/
structure ValidationResult where
  isValid : Bool
  errorType : Str
  errorMessage : Str
  shouldRetry : Bool
  deriving DecidableEq

/-- The zero-value-plus-`IsValid` result `ValidationResult{IsValid: true}`. -/
def ValidationResult.ok : ValidationResult := ⟨true, [], [], false⟩

namespace ResponseValidator

/-- The OpenAI leg of `hasEmptyContent`: `some b` when every type assertion
on the path `choices[0].message.content` succeeds (Go then returns `b`),
`none` when the Go code falls through to the next provider check. -/
def openaiEmptyCheck (response : GoObj) : Option Bool :=
  match (getField response (str ("choices"))).bind asArr with
  | some (c0 :: _) =>
    match asObj c0 with
    | some choice =>
      match (getField choice (str ("message"))).bind asObj with
      | some message =>
        match (getField message (str ("content"))).bind asStr with
        | some content => some (trimSpaceGo content == ([] : Str))
        | none => none
      | none => none
    | none => none
  | _ => none

/-- The Gemini leg of `hasEmptyContent` (`candidates[0].content.parts[0].text`). -/
def geminiEmptyCheck (response : GoObj) : Option Bool :=
  match (getField response (str ("candidates"))).bind asArr with
  | some (c0 :: _) =>
    match asObj c0 with
    | some candidate =>
      match (getField candidate (str ("content"))).bind asObj with
      | some content =>
        match (getField content (str ("parts"))).bind asArr with
        | some (p0 :: _) =>
          match asObj p0 with
          | some part =>
            match (getField part (str ("text"))).bind asStr with
            | some text => some (trimSpaceGo text == ([] : Str))
            | none => none
          | none => none
        | _ => none
      | none => none
    | none => none
  | _ => none

/-- The Anthropic leg of `hasEmptyContent` (`content[0].text`). -/
def anthropicEmptyCheck (response : GoObj) : Option Bool :=
  match (getField response (str ("content"))).bind asArr with
  | some (c0 :: _) =>
    match asObj c0 with
    | some contentItem =>
      match (getField contentItem (str ("text"))).bind asStr with
      | some text => some (trimSpaceGo text == ([] : Str))
      | none => none
    | none => none
  | _ => none

/-- Model of `hasEmptyContent`: provider legs in order, first one whose assertions
all succeed decides. -/
def hasEmptyContent (response : GoObj) : Bool :=
  match openaiEmptyCheck response with
  | some b => b
  | none =>
    match geminiEmptyCheck response with
    | some b => b
    | none =>
      match anthropicEmptyCheck response with
      | some b => b
      | none => false

/-- Model of `isEmptyResponse`: provider-specific token-count-zero byte markers, then
a parse-and-inspect fallback. -/
def isEmptyResponse (ext : Externals) (body : Str) : Bool :=
  containsB body (str ("\"completion_tokens\":0")) ||
  containsB body (str ("\"candidatesTokenCount\":0")) ||
  containsB body (str ("\"output_tokens\":0")) ||
  (match ext.unmarshal body with
   | some response => hasEmptyContent response
   | none => false)

/-- Model of `isBlockedResponse`: raw-byte markers for safety blocking. -/
def isBlockedResponse (body : Str) : Bool :=
  containsB body (str ("blockReason")) ||
  containsB body (str ("content_filter")) ||
  (containsB body (str ("\"stop_reason\":\"stop_sequence\"")) &&
   containsB body (str ("safety")))

/-- The fixed `abnormalReasons` table. -/
def abnormalReasons : List Str :=
  [str ("SAFETY"), str ("RECITATION"), str ("OTHER"), str ("ERROR"),
   str ("PROHIBITED_CONTENT"), str ("SPII"), str ("MALFORMED_FUNCTION_CALL")]

/-- The loop body of `getAbnormalFinishReason`. -/
def abnormalFinishLoop (body : Str) : List Str → Str
  | [] => []
  | reason :: rest =>
    if containsB body (str ("\"finishReason\":\"") ++ reason ++ str ("\"")) ||
       containsB body (str ("\"finish_reason\":\"") ++ lowerStr reason ++ str ("\"")) ||
       containsB body (str ("\"stop_reason\":\"") ++ lowerStr reason ++ str ("\""))
    then reason else abnormalFinishLoop body rest

/-- Model of `getAbnormalFinishReason`: first matching abnormal reason, else `""`. -/
def getAbnormalFinishReason (body : Str) : Str :=
  abnormalFinishLoop body abnormalReasons

/-- The OpenAI leg of `hasNonEmptyContent` (returns from the function when
every assertion succeeds, otherwise falls through). -/
def openaiNonEmptyCheck (response : GoObj) : Option Bool :=
  match (getField response (str ("choices"))).bind asArr with
  | some (c0 :: _) =>
    match asObj c0 with
    | some choice =>
      match (getField choice (str ("message"))).bind asObj with
      | some message =>
        match (getField message (str ("content"))).bind asStr with
        | some content => some (trimSpaceGo content != ([] : Str))
        | none => none
      | none => none
    | none => none
  | _ => none

/-- The Gemini leg of `hasNonEmptyContent`: true when some part has
non-blank text (a fruitless loop falls through to the Anthropic leg). -/
def geminiAnyNonEmpty (response : GoObj) : Bool :=
  match (getField response (str ("candidates"))).bind asArr with
  | some (c0 :: _) =>
    match asObj c0 with
    | some candidate =>
      match (getField candidate (str ("content"))).bind asObj with
      | some content =>
        match (getField content (str ("parts"))).bind asArr with
        | some parts =>
          parts.any fun part =>
            match asObj part with
            | some partMap =>
              match (getField partMap (str ("text"))).bind asStr with
              | some text => trimSpaceGo text != ([] : Str)
              | none => false
            | none => false
        | none => false
      | none => false
    | none => false
  | _ => false

/-- The Anthropic leg of `hasNonEmptyContent`. -/
def anthropicAnyNonEmpty (response : GoObj) : Bool :=
  match (getField response (str ("content"))).bind asArr with
  | some items =>
    items.any fun item =>
      match asObj item with
      | some itemMap =>
        match (getField itemMap (str ("text"))).bind asStr with
        | some text => trimSpaceGo text != ([] : Str)
        | none => false
      | none => false
  | none => false

/-- Model of `hasNonEmptyContent`. -/
def hasNonEmptyContent (ext : Externals) (body : Str) : Bool :=
  match ext.unmarshal body with
  | none => false
  | some response =>
    match openaiNonEmptyCheck response with
    | some b => b
    | none => geminiAnyNonEmpty response || anthropicAnyNonEmpty response

/-- Model of `isIncompleteResponse`: normal stop reason with content but no
completion token. -/
def isIncompleteResponse (ext : Externals) (body : Str) : Bool :=
  let hasStopReason :=
    containsB body (str ("\"finish_reason\":\"stop\"")) ||
    containsB body (str ("\"finishReason\":\"STOP\""))
  if !hasStopReason then false
  else
    let hasCompletionTok := containsB body (str ("[done]"))
    let hasContent := hasNonEmptyContent ext body
    hasContent && !hasCompletionTok

/-- Model of `ValidateResponse`: the non-streaming check chain, in source order. -/
def ValidateResponse (ext : Externals) (body : Str) (provider : Str)
    (isStream : Bool) : ValidationResult :=
  if isStream then ValidationResult.ok
  else if isEmptyResponse ext body then
    ⟨false, str ("EMPTY_RESPONSE"),
     str ("AI service returned empty content (completion_tokens: 0)"), true⟩
  else if isBlockedResponse body then
    ⟨false, str ("BLOCKED_CONTENT"), str ("Content was blocked by safety filters"), true⟩
  else
    let abnormalReason := getAbnormalFinishReason body
    if abnormalReason != ([] : Str) then
      ⟨false, str ("ABNORMAL_FINISH"),
       str ("Response ended with abnormal reason: ") ++ abnormalReason, true⟩
    else if isIncompleteResponse ext body then
      ⟨false, str ("INCOMPLETE_RESPONSE"),
       str ("Response appears incomplete (missing completion token)"), true⟩
    else ValidationResult.ok

/-- Model of `hasNonEmptyStreamContent`: some `data:` line with a non-blank,
non-`[DONE]` payload. -/
def hasNonEmptyStreamContent (body : Str) (provider : Str) : Bool :=
  (splitOnChar (Char.ofNat 10) body).any fun line =>
    isPrefixB (str ("data:")) line &&
      (let content := trimSpaceGo (trimPrefixB line (str ("data:")))
       content != ([] : Str) && content != str ("[DONE]"))

/-- Model of `ValidateStreamResponse`: content check first, then the terminal-marker
check. -/
def ValidateStreamResponse (body : Str) (provider : Str) : ValidationResult :=
  let isDone := containsB body (str ("data: [DONE]"))
  let hasContent := hasNonEmptyStreamContent body provider
  if !hasContent then
    ⟨false, str ("EMPTY_RESPONSE"), str ("Stream response contained no meaningful content."), true⟩
  else if !isDone then
    ⟨false, str ("INCOMPLETE_STREAM"),
     str ("Stream ended prematurely without the [DONE] marker."), true⟩
  else ValidationResult.ok

/-- Model of `endsWithSentencePunctuation`: trimmed text ends in a CJK or Latin
sentence terminator. -/
def endsWithSentencePunctuation (text : Str) : Bool :=
  let trimmed := trimSpaceGo text
  match trimmed.getLast? with
  | none => false
  | some lastRune =>
    ['。', '？', '！', '.', '!', '?', '…'].any fun p => lastRune == p

/-- Model of `extractOpenAIText`. -/
def extractOpenAIText (response : GoObj) : Str :=
  match (getField response (str ("choices"))).bind asArr with
  | some (c0 :: _) =>
    match asObj c0 with
    | some choice =>
      match (getField choice (str ("message"))).bind asObj with
      | some message =>
        match (getField message (str ("content"))).bind asStr with
        | some content => content
        | none => []
      | none => []
    | none => []
  | _ => []

/-- Model of `extractGeminiText`: concatenates the text of every part. -/
def extractGeminiText (response : GoObj) : Str :=
  match (getField response (str ("candidates"))).bind asArr with
  | some (c0 :: _) =>
    match asObj c0 with
    | some candidate =>
      match (getField candidate (str ("content"))).bind asObj with
      | some content =>
        match (getField content (str ("parts"))).bind asArr with
        | some parts =>
          parts.foldl
            (fun acc part =>
              match asObj part with
              | some partMap =>
                match (getField partMap (str ("text"))).bind asStr with
                | some partText => acc ++ partText
                | none => acc
              | none => acc)
            []
        | none => []
      | none => []
    | none => []
  | _ => []

/-- Model of `extractAnthropicText`: concatenates the text of every content item. -/
def extractAnthropicText (response : GoObj) : Str :=
  match (getField response (str ("content"))).bind asArr with
  | some items =>
    items.foldl
      (fun acc item =>
        match asObj item with
        | some itemMap =>
          match (getField itemMap (str ("text"))).bind asStr with
          | some itemText => acc ++ itemText
          | none => acc
        | none => acc)
      []
  | none => []

/-- Model of `extractGenericText`: first provider leg yielding non-empty text. -/
def extractGenericText (response : GoObj) : Str :=
  let t := extractOpenAIText response
  if t != ([] : Str) then t
  else
    let g := extractGeminiText response
    if g != ([] : Str) then g
    else
      let a := extractAnthropicText response
      if a != ([] : Str) then a else []

/-- Model of `extractResponseText`: parse then dispatch on the provider name. -/
def extractResponseText (ext : Externals) (body : Str) (provider : Str) : Str :=
  match ext.unmarshal body with
  | none => []
  | some response =>
    if provider == str ("openai") then extractOpenAIText response
    else if provider == str ("gemini") then extractGeminiText response
    else if provider == str ("anthropic") then extractAnthropicText response
    else extractGenericText response

/-- Model of `CheckPunctuationHeuristic`, with the validator-held mutable
`punctuationEndCount` threaded explicitly: returns the override decision and
the updated counter. -/
def CheckPunctuationHeuristic (ext : Externals) (punctuationEndCount : Nat)
    (body : Str) (provider : Str) (enableHeuristic : Bool) : Bool × Nat :=
  if !enableHeuristic then (false, punctuationEndCount)
  else
    let text := extractResponseText ext body provider
    if text == ([] : Str) then (false, 0)
    else if endsWithSentencePunctuation text then
      if punctuationEndCount + 1 ≥ 3 then (true, 0)
      else (false, punctuationEndCount + 1)
    else (false, 0)

end ResponseValidator

namespace PromptInjector

/-- Model of `cleanTokenFromText` (prompt injector): trim white space, remove one
trailing completion token if present, and trim again. -/
def cleanTokenFromText (text : Str) : Str :=
  let cleaned := trimSpaceGo text
  if endsWithB CompletionToken cleaned then
    trimSpaceGo (trimSuffixB cleaned CompletionToken)
  else cleaned

/-- Model of `removeOpenAIToken`: strip the sentinel from `choices[0].message.content`;
returns the (functionally) updated object and the Go `modified`
flag. -/
def removeOpenAIToken (response : GoObj) : GoObj × Bool :=
  match (getField response (str ("choices"))).bind asArr with
  | some (c0 :: restChoices) =>
    match asObj c0 with
    | some choice =>
      match (getField choice (str ("message"))).bind asObj with
      | some message =>
        match (getField message (str ("content"))).bind asStr with
        | some content =>
          let cleaned := cleanTokenFromText content
          if cleaned != content then
            let message2 := setField message (str ("content")) (.vStr cleaned)
            let choice2 := setField choice (str ("message")) (.vObj message2)
            (setField response (str ("choices")) (.vArr (.vObj choice2 :: restChoices)), true)
          else (response, false)
        | none => (response, false)
      | none => (response, false)
    | none => (response, false)
  | _ => (response, false)

/-- One part of the `removeGeminiToken` loop. -/
def cleanPart (part : GoValue) : GoValue × Bool :=
  match asObj part with
  | some partMap =>
    match (getField partMap (str ("text"))).bind asStr with
    | some text =>
      let cleaned := cleanTokenFromText text
      if cleaned != text then (.vObj (setField partMap (str ("text")) (.vStr cleaned)), true)
      else (part, false)
    | none => (part, false)
  | none => (part, false)

/-- Model of `removeGeminiToken`: clean every part of `candidates[0].content.parts`. -/
def removeGeminiToken (response : GoObj) : GoObj × Bool :=
  match (getField response (str ("candidates"))).bind asArr with
  | some (c0 :: restCands) =>
    match asObj c0 with
    | some candidate =>
      match (getField candidate (str ("content"))).bind asObj with
      | some content =>
        match (getField content (str ("parts"))).bind asArr with
        | some parts =>
          let results := parts.map cleanPart
          if results.any (·.2) then
            let content2 := setField content (str ("parts")) (.vArr (results.map (·.1)))
            let candidate2 := setField candidate (str ("content")) (.vObj content2)
            (setField response (str ("candidates")) (.vArr (.vObj candidate2 :: restCands)), true)
          else (response, false)
        | none => (response, false)
      | none => (response, false)
    | none => (response, false)
  | _ => (response, false)

/-- Model of `removeAnthropicToken`: clean every item of the top-level `content`. -/
def removeAnthropicToken (response : GoObj) : GoObj × Bool :=
  match (getField response (str ("content"))).bind asArr with
  | some items =>
    let results := items.map cleanPart
    if results.any (·.2) then
      (setField response (str ("content")) (.vArr (results.map (·.1))), true)
    else (response, false)
  | none => (response, false)

/-- Model of `removeGenericToken`: provider legs in order, first modification wins. -/
def removeGenericToken (response : GoObj) : GoObj × Bool :=
  let r1 := removeOpenAIToken response
  if r1.2 then r1
  else
    let r2 := removeGeminiToken response
    if r2.2 then r2
    else
      let r3 := removeAnthropicToken response
      if r3.2 then r3 else (response, false)

/-- Model of `RemoveCompletionToken`: parse, strip per provider, re-marshal when
modified, otherwise hand back the original bytes. -/
def RemoveCompletionToken (ext : Externals) (responseBody : Str) (provider : Str) : Str :=
  match ext.unmarshal responseBody with
  | none => responseBody
  | some response =>
    let pr :=
      if provider == str ("openai") then removeOpenAIToken response
      else if provider == str ("gemini") then removeGeminiToken response
      else if provider == str ("anthropic") then removeAnthropicToken response
      else removeGenericToken response
    if pr.2 then ext.marshal pr.1 else responseBody

end PromptInjector

namespace ContextManager

/-- Model of `extractOpenAIText` (context-manager copy). -/
def extractOpenAIText (response : GoObj) : Str :=
  match (getField response (str ("choices"))).bind asArr with
  | some (c0 :: _) =>
    match asObj c0 with
    | some choice =>
      match (getField choice (str ("message"))).bind asObj with
      | some message =>
        match (getField message (str ("content"))).bind asStr with
        | some content => content
        | none => []
      | none => []
    | none => []
  | _ => []

/-- Model of `extractGeminiText` (context-manager copy). -/
def extractGeminiText (response : GoObj) : Str :=
  match (getField response (str ("candidates"))).bind asArr with
  | some (c0 :: _) =>
    match asObj c0 with
    | some candidate =>
      match (getField candidate (str ("content"))).bind asObj with
      | some content =>
        match (getField content (str ("parts"))).bind asArr with
        | some parts =>
          parts.foldl
            (fun acc part =>
              match asObj part with
              | some partMap =>
                match (getField partMap (str ("text"))).bind asStr with
                | some partText => acc ++ partText
                | none => acc
              | none => acc)
            []
        | none => []
      | none => []
    | none => []
  | _ => []

/-- Model of `extractAnthropicText` (context-manager copy). -/
def extractAnthropicText (response : GoObj) : Str :=
  match (getField response (str ("content"))).bind asArr with
  | some items =>
    items.foldl
      (fun acc item =>
        match asObj item with
        | some itemMap =>
          match (getField itemMap (str ("text"))).bind asStr with
          | some itemText => acc ++ itemText
          | none => acc
        | none => acc)
      []
  | none => []

/-- Model of `extractGenericText` (context-manager copy). -/
def extractGenericText (response : GoObj) : Str :=
  let t := extractOpenAIText response
  if t != ([] : Str) then t
  else
    let g := extractGeminiText response
    if g != ([] : Str) then g
    else
      let a := extractAnthropicText response
      if a != ([] : Str) then a else []

/-- Model of `ExtractAccumulatedText`: parse then dispatch on the provider name. -/
def ExtractAccumulatedText (ext : Externals) (responseBody : Str) (provider : Str) : Str :=
  match ext.unmarshal responseBody with
  | none => []
  | some response =>
    if provider == str ("openai") then extractOpenAIText response
    else if provider == str ("gemini") then extractGeminiText response
    else if provider == str ("anthropic") then extractAnthropicText response
    else extractGenericText response

/-- The `role == "user"` test of `insertContextAfterLastUser`. -/
def isUserMessage (m : GoValue) : Bool :=
  match asObj m with
  | some message =>
    match (getField message (str ("role"))).bind asStr with
    | some role => role == str ("user")
    | none => false
  | none => false

/-- The last-user-message scan of `insertContextAfterLastUser`. -/
def lastUserIdx (messages : List GoValue) : Option Nat :=
  match messages.reverse.findIdx? isUserMessage with
  | some j => some (messages.length - 1 - j)
  | none => none

/-- Model of `insertContextAfterLastUser`: splice the synthetic turns after the last
user turn, or append them when no user turn exists. -/
def insertContextAfterLastUser (messages contextMessages : List GoValue) : List GoValue :=
  match lastUserIdx messages with
  | some i => messages.take (i + 1) ++ contextMessages ++ messages.drop (i + 1)
  | none => messages ++ contextMessages

/-- The continuation instruction text. -/
def continueInstruction : Str :=
  str ("Continue exactly where you left off without any preamble or repetition.")

/-- Model of `buildOpenAIRetryRequest`. -/
def buildOpenAIRetryRequest (ext : Externals) (originalRequest : GoObj)
    (accumulatedText : Str) : Str :=
  let retryRequest := originalRequest
  match (getField retryRequest (str ("messages"))).bind asArr with
  | none => ext.marshal retryRequest
  | some messages =>
    let contextMessages : List GoValue :=
      [.vObj [(str ("role"), .vStr (str ("assistant"))),
              (str ("content"), .vStr accumulatedText)],
       .vObj [(str ("role"), .vStr (str ("user"))),
              (str ("content"), .vStr continueInstruction)]]
    let newMessages := insertContextAfterLastUser messages contextMessages
    ext.marshal (setField retryRequest (str ("messages")) (.vArr newMessages))

/-- Model of `buildGeminiRetryRequest`. -/
def buildGeminiRetryRequest (ext : Externals) (originalRequest : GoObj)
    (accumulatedText : Str) : Str :=
  let retryRequest := originalRequest
  let contents :=
    match (getField retryRequest (str ("contents"))).bind asArr with
    | some l => l
    | none => []
  let contextMessages : List GoValue :=
    [.vObj [(str ("role"), .vStr (str ("model"))),
            (str ("parts"), .vArr [.vObj [(str ("text"), .vStr accumulatedText)]])],
     .vObj [(str ("role"), .vStr (str ("user"))),
            (str ("parts"), .vArr [.vObj [(str ("text"), .vStr continueInstruction)]])]]
  let newContents := insertContextAfterLastUser contents contextMessages
  ext.marshal (setField retryRequest (str ("contents")) (.vArr newContents))

/-- Model of `buildAnthropicRetryRequest`. -/
def buildAnthropicRetryRequest (ext : Externals) (originalRequest : GoObj)
    (accumulatedText : Str) : Str :=
  let retryRequest := originalRequest
  match (getField retryRequest (str ("messages"))).bind asArr with
  | none => ext.marshal retryRequest
  | some messages =>
    let contextMessages : List GoValue :=
      [.vObj [(str ("role"), .vStr (str ("assistant"))),
              (str ("content"),
               .vArr [.vObj [(str ("type"), .vStr (str ("text"))),
                             (str ("text"), .vStr accumulatedText)]])],
       .vObj [(str ("role"), .vStr (str ("user"))),
              (str ("content"),
               .vArr [.vObj [(str ("type"), .vStr (str ("text"))),
                             (str ("text"), .vStr continueInstruction)]])]]
    let newMessages := insertContextAfterLastUser messages contextMessages
    ext.marshal (setField retryRequest (str ("messages")) (.vArr newMessages))

/-- Model of `buildGenericRetryRequest`: detect the shape by key presence. -/
def buildGenericRetryRequest (ext : Externals) (originalRequest : GoObj)
    (accumulatedText : Str) : Str :=
  if (getField originalRequest (str ("messages"))).isSome then
    buildOpenAIRetryRequest ext originalRequest accumulatedText
  else if (getField originalRequest (str ("contents"))).isSome then
    buildGeminiRetryRequest ext originalRequest accumulatedText
  else ext.marshal originalRequest

/-- Model of `BuildRetryRequest`: `none` models the parse-error return. -/
def BuildRetryRequest (ext : Externals) (originalBody : Str) (accumulatedText : Str)
    (provider : Str) : Option Str :=
  if trimSpaceGo accumulatedText == ([] : Str) then some originalBody
  else
    match ext.unmarshal originalBody with
    | none => none
    | some originalRequest =>
      if provider == str ("openai") then
        some (buildOpenAIRetryRequest ext originalRequest accumulatedText)
      else if provider == str ("gemini") then
        some (buildGeminiRetryRequest ext originalRequest accumulatedText)
      else if provider == str ("anthropic") then
        some (buildAnthropicRetryRequest ext originalRequest accumulatedText)
      else some (buildGenericRetryRequest ext originalRequest accumulatedText)

end ContextManager

/-- The accumulated-continuation-text cap from `executeRequestWithRetry`
(server.go lines 289-295): the overflow test compares the Go byte length
against the cap, the truncation then counts and keeps runes. -/
def capAccumulatedText (maxAccumulatedChars : Int) (newAccumulatedText : Str) : Str :=
  if 0 < maxAccumulatedChars ∧ maxAccumulatedChars < (goByteLen newAccumulatedText : Int) then
    let runes := newAccumulatedText
    if maxAccumulatedChars < (runes.length : Int) then runes.take maxAccumulatedChars.toNat
    else newAccumulatedText
  else newAccumulatedText

theorem length_le_goByteLen (s : Str) : s.length ≤ goByteLen s := by
  induction s with
  | nil => simp [goByteLen]
  | cons c t ih =>
      have hc : 1 ≤ c.utf8Size := Char.utf8Size_pos c
      simp only [goByteLen, List.map_cons, List.sum_cons, List.length_cons]
      simp only [goByteLen] at ih
      omega

theorem capAccumulatedText_length_le (m : Int) (hm : 0 < m) (s : Str) :
    ((capAccumulatedText m s).length : Int) ≤ m := by
  unfold capAccumulatedText
  split
  · dsimp only
    split
    · next hrune =>
        have hmn : (m.toNat : Int) = m := Int.toNat_of_nonneg (le_of_lt hm)
        simp only [List.length_take]
        have : min m.toNat s.length ≤ m.toNat := Nat.min_le_left _ _
        omega
    · next hrune => omega
  · next hbyte =>
      have h1 : s.length ≤ goByteLen s := length_le_goByteLen s
      have h2 : ¬(0 < m ∧ m < (goByteLen s : Int)) := hbyte
      have h3 : (goByteLen s : Int) ≤ m := by
        rcases lt_or_ge m (goByteLen s : Int) with h | h
        · exact absurd ⟨hm, h⟩ h2
        · omega
      omega

theorem capAccumulatedText_keeps_head (m : Int) (s : Str) :
    ∃ rest : Str, capAccumulatedText m s ++ rest = s := by
  unfold capAccumulatedText
  split
  · dsimp only
    split
    · exact ⟨s.drop m.toNat, List.take_append_drop _ s⟩
    · exact ⟨[], by simp⟩
  · exact ⟨[], by simp⟩

/-- Claim C4: starting from the empty accumulated text, after any number of
append-then-cap steps (the step performed by `executeRequestWithRetry` on an
invalid-but-partial attempt) the accumulated continuation text never exceeds
a positive cap when counted in runes, and the cap always keeps a prefix
(drops the tail) — even though the overflow test compares the byte length
against the cap. -/
theorem c4_accumulated_text_cap (m : Int) (hm : 0 < m) (texts : List Str) :
    ((texts.foldl (fun acc currentText => capAccumulatedText m (acc ++ currentText))
        ([] : Str)).length : Int) ≤ m
  ∧ ∀ s : Str, ∃ rest : Str, capAccumulatedText m s ++ rest = s := by
  constructor
  · have aux : ∀ (ts : List Str) (acc : Str), ((acc.length : Int)) ≤ m →
        ((ts.foldl (fun a c => capAccumulatedText m (a ++ c)) acc).length : Int) ≤ m := by
      intro ts
      induction ts with
      | nil => intro acc h; simpa using h
      | cons t ts ih =>
          intro acc h
          simp only [List.foldl_cons]
          exact ih _ (capAccumulatedText_length_le m hm _)
    exact aux texts [] (by simp; omega)
  · exact capAccumulatedText_keeps_head m

/-- Claim C4, witness: cap 3, two appends of `"ab"`; the accumulated text is
truncated to 3 runes and the cap keeps the prefix of a sample string. -/
theorem c4_witness :
    (((([str ("ab"), str ("ab")]).foldl
          (fun acc currentText => capAccumulatedText 3 (acc ++ currentText))
          ([] : Str)).length : Int) ≤ 3)
  ∧ ∃ rest : Str, capAccumulatedText 3 (str ("hello")) ++ rest = str ("hello") :=
  ⟨(c4_accumulated_text_cap 3 (by decide) [str ("ab"), str ("ab")]).1,
   (c4_accumulated_text_cap 3 (by decide) []).2 (str ("hello"))⟩

/-! ### The request-execution engine

`executeRequestWithRetry` (server.go) is modelled as a recursive function
over an environment `env : Nat → AttemptEnv` giving, per attempt index, the
behaviour of the external collaborators: the key-provider selection and
the upstream dispatch outcome (transport error or HTTP response), plus the
streaming relay upstream/client I/O behaviour.  The function returns the
observable trace: client writes, log-sink records, key health marks, the
number of upstream dispatches, and the final punctuation streak. -/

/-- The per-group `EffectiveConfig` fields read by the engine. -/
structure EffectiveConfig where
  maxRetries : Nat
  requestTimeout : Nat

/-- The system settings fields read by the engine. -/
structure SystemSettings where
  enableCompletionCheck : Bool
  enableAdvancedRetry : Bool
  enablePunctuationHeuristic : Bool
  enableContextRetry : Bool
  maxAccumulatedChars : Int

/-- Model of `types.RetryError`: one attempt record. -/
structure RetryError where
  statusCode : Nat
  errorMessage : Str
  parsedErrorMessage : Str
  keyValue : Str
  attempt : Nat
  upstreamAddr : Str
  deriving DecidableEq

/-- The fields of `models.RequestLog` that the engine determines. -/
structure RequestLogModel where
  isSuccess : Bool
  statusCode : Nat
  retries : Nat
  errorMessage : Option Str
  keyValue : Option Str
  isStream : Bool
  deriving DecidableEq

/-- Model of `logRequest`: builds one log record (`IsSuccess` is
`finalError == nil && statusCode < 400`). -/
def mkRequestLog (statusCode retries : Nat) (finalErr : Option Str)
    (keyValue : Option Str) (isStream : Bool) : RequestLogModel :=
  ⟨finalErr.isNone && decide (statusCode < 400), statusCode, retries, finalErr,
   keyValue, isStream⟩

/-- One client-visible write performed by the engine. -/
inductive WriteEvent where
  /-- Model of `c.JSON(status, errorJSON)` on exhaustion with a JSON upstream error. -/
  | errorJson (code : Nat) (payload : Str)
  /-- Model of `response.Error(c, ...)`: a structured error response. -/
  | errorResponse (code : Nat) (message : Str)
  /-- Model of `c.Status(code)`: committing the upstream status on the success path. -/
  | statusLine (code : Nat)
  /-- one incremental chunk written during the streaming relay. -/
  | chunk (data : Str)
  /-- a whole-body write. -/
  | bodyWrite (data : Str)
  deriving DecidableEq

/-- The I/O behaviour of one attempt upstream stream and client sink:
the chunks upstream delivers, an optional upstream read error after them,
and an optional client write failure at a chunk index. -/
structure StreamEnv where
  hasFlusher : Bool
  chunks : List Str
  readErr : Option Str
  writeErr : Option (Nat × Str)

/-- The outcome of `client.Do` for one attempt. -/
inductive DispatchResult where
  | transportErr (ignorable : Bool) (message : Str)
  | httpResponse (statusCode : Nat) (body : Str)

/-- Collaborator behaviour for one attempt: the key selection, the
`BuildUpstreamURL` outcome (error message or upstream URL), the
`http.NewRequestWithContext` outcome (`some` error message on failure),
the dispatch outcome, and the stream I/O behaviour. -/
structure AttemptEnv where
  selectKey : Except Str Str
  buildURL : Except Str Str
  newRequest : Option Str
  dispatch : DispatchResult
  stream : StreamEnv

/-- The observable trace of one engine invocation. -/
structure ExecResult where
  writes : List WriteEvent
  logs : List RequestLogModel
  keyMarks : List (Str × Bool)
  dispatches : Nat
  punctFinal : Nat
  deriving DecidableEq

/-- The relay loop of `handleStreamingResponse`: tee every chunk read from
upstream into the buffer, then write it to the client, stopping on a client
write error.  Returns (buffer, client writes, write error). -/
def relayLoop : List Str → Option (Nat × Str) → Str × List WriteEvent × Option Str
  | [], _ => ([], [], none)
  | ch :: rest, we =>
    match we with
    | some (0, msg) => (ch, [], some msg)
    | some (n + 1, msg) =>
      let r := relayLoop rest (some (n, msg))
      (ch ++ r.1, .chunk ch :: r.2.1, r.2.2)
    | none =>
      let r := relayLoop rest none
      (ch ++ r.1, .chunk ch :: r.2.1, r.2.2)

/-- Model of `handleStreamingResponse` (the tee relay): with no flusher, fall back to
a whole-body copy with no validation; otherwise relay chunk-by-chunk while
buffering, surface read/write failures as retryable `STREAM_ERROR`s, and on
clean end of stream validate the buffer when advanced retry is enabled.
Returns the validation outcome, the buffered body, and the client writes. -/
def handleStreamingResponse (settings : SystemSettings) (channelType : Str)
    (se : StreamEnv) : ValidationResult × Str × List WriteEvent :=
  if !se.hasFlusher then
    match se.readErr with
    | some _ => (⟨false, str ("STREAM_ERROR"), str ("Fallback failed"), true⟩, [], [])
    | none =>
      let body := se.chunks.foldr (fun a b => a ++ b) []
      (ValidationResult.ok, body, [.bodyWrite body])
  else
    let r := relayLoop se.chunks se.writeErr
    let streamErr :=
      match r.2.2 with
      | some msg => some msg
      | none => se.readErr
    match streamErr with
    | some msg => (⟨false, str ("STREAM_ERROR"), msg, true⟩, r.1, r.2.1)
    | none =>
      if settings.enableAdvancedRetry then
        (ResponseValidator.ValidateStreamResponse r.1 channelType, r.1, r.2.1)
      else (ValidationResult.ok, r.1, r.2.1)

/-- Model of `handleNormalResponse`: strip the completion token when the feature is
enabled, then write the body once. -/
def handleNormalResponse (ext : Externals) (settings : SystemSettings)
    (channelType : Str) (respBody : Str) : List WriteEvent :=
  let cleanedBody :=
    if settings.enableCompletionCheck then
      PromptInjector.RemoveCompletionToken ext respBody channelType
    else respBody
  [.bodyWrite cleanedBody]

/-- Modelled from the spec: the message text of
`app_errors.ErrMaxRetriesExceeded` (`internal/errors`, outside src/); only
its presence as the exhaustion error matters here. -/
def maxRetriesMsg : Str := str ("Max retries exceeded")

/-- Modelled from the spec: the message text of
`app_errors.ErrInternalServer` (`internal/errors`, outside src/), written to
the client when building the upstream request fails; only its presence as
the error response matters here. -/
def internalServerMsg : Str := str ("Internal server error")

/-- Model of `executeRequestWithRetry` (server.go lines 111-372), with the validator
punctuation streak threaded through `punctCount`.  The `BuildUpstreamURL`
failure (lines 155-159) and the `http.NewRequestWithContext` failure (lines
171-176) are terminal paths that write one client error response and never
call `logRequest`.  The body read of a non-streaming response is assumed to
succeed; note that server.go line 258 shadows `bodyBytes` with the response
body, so everything the validation branch does with `bodyBytes` — including
building the continuation retry request and its fallbacks — operates on
`respBody`. -/
def executeRequestWithRetry (ext : Externals) (env : Nat → AttemptEnv)
    (cfg : EffectiveConfig) (settings : SystemSettings) (channelType : Str)
    (bodyBytes : Str) (isStream : Bool) (retryCount : Nat)
    (retryErrors : List RetryError) (accumulatedText : Str) (punctCount : Nat) :
    ExecResult :=
  if h : cfg.maxRetries < retryCount then
    match retryErrors.getLast? with
    | some lastError =>
      let writeEv :=
        match ext.unmarshal lastError.errorMessage with
        | some _ => WriteEvent.errorJson lastError.statusCode lastError.errorMessage
        | none => WriteEvent.errorResponse lastError.statusCode lastError.errorMessage
      let logMessage :=
        if lastError.parsedErrorMessage == ([] : Str) then lastError.errorMessage
        else lastError.parsedErrorMessage
      ⟨[writeEv],
       [mkRequestLog lastError.statusCode retryCount (some logMessage)
          (some lastError.keyValue) isStream],
       [], 0, punctCount⟩
    | none =>
      ⟨[.errorResponse 503 maxRetriesMsg],
       [mkRequestLog 503 retryCount (some maxRetriesMsg) none isStream],
       [], 0, punctCount⟩
  else
    match (env retryCount).selectKey with
    | .error errMsg =>
      ⟨[.errorResponse 503 errMsg],
       [mkRequestLog 503 retryCount (some errMsg) none isStream],
       [], 0, punctCount⟩
    | .ok keyValue =>
      match (env retryCount).buildURL with
      | .error errMsg =>
        -- server.go 155-159: write the internal error, return without logging
        ⟨[.errorResponse 500 (str ("Failed to build upstream URL: ") ++ errMsg)],
         [], [], 0, punctCount⟩
      | .ok upstreamURL =>
        match (env retryCount).newRequest with
        | some _ =>
          -- server.go 171-176: write the internal error, return without logging
          ⟨[.errorResponse 500 internalServerMsg], [], [], 0, punctCount⟩
        | none =>
          match (env retryCount).dispatch with
          | .transportErr ignorable errMsg =>
            if ignorable then
              ⟨[], [mkRequestLog 499 (retryCount + 1) (some errMsg) (some keyValue) isStream],
               [], 1, punctCount⟩
            else
              let newRetryErrors :=
                retryErrors ++ [⟨500, errMsg, [], keyValue, retryCount + 1, upstreamURL⟩]
              let r := executeRequestWithRetry ext env cfg settings channelType
                bodyBytes isStream (retryCount + 1) newRetryErrors accumulatedText punctCount
              ⟨r.writes, r.logs, (keyValue, false) :: r.keyMarks, r.dispatches + 1, r.punctFinal⟩
          | .httpResponse statusCode respBody =>
            if 400 ≤ statusCode ∧ statusCode ≠ 404 then
              let newRetryErrors :=
                retryErrors ++
                  [⟨statusCode, respBody, ext.parseUpstreamErr respBody, keyValue,
                    retryCount + 1, upstreamURL⟩]
              let r := executeRequestWithRetry ext env cfg settings channelType
                bodyBytes isStream (retryCount + 1) newRetryErrors accumulatedText punctCount
              ⟨r.writes, r.logs, (keyValue, false) :: r.keyMarks, r.dispatches + 1, r.punctFinal⟩
            else
              let validationResult :=
                ResponseValidator.ValidateResponse ext respBody channelType isStream
              let heuristicRan := !isStream && settings.enableAdvancedRetry &&
                !validationResult.isValid && validationResult.shouldRetry
              let pr := ResponseValidator.CheckPunctuationHeuristic ext punctCount respBody
                channelType settings.enablePunctuationHeuristic
              if heuristicRan && !pr.1 then
                -- invalid, retryable, not overridden: mark the key, accumulate
                -- continuation text, rebuild the body, record the attempt, recurse
                let ctxPair : Str × Str :=
                  if settings.enableContextRetry then
                    let currentText := ContextManager.ExtractAccumulatedText ext respBody channelType
                    let newAccumulatedText :=
                      capAccumulatedText settings.maxAccumulatedChars
                        (accumulatedText ++ currentText)
                    let retryBodyBytes :=
                      if trimSpaceGo newAccumulatedText != ([] : Str) then
                        match ContextManager.BuildRetryRequest ext respBody newAccumulatedText
                            channelType with
                        | some b => b
                        | none => respBody
                      else respBody
                    (newAccumulatedText, retryBodyBytes)
                  else (accumulatedText, respBody)
                let newRetryErrors :=
                  retryErrors ++
                    [⟨500, validationResult.errorMessage,
                      validationResult.errorType ++ str (": ") ++ validationResult.errorMessage,
                      keyValue, retryCount + 1, upstreamURL⟩]
                let r := executeRequestWithRetry ext env cfg settings channelType
                  ctxPair.2 isStream (retryCount + 1) newRetryErrors ctxPair.1 pr.2
                ⟨r.writes, r.logs, (keyValue, false) :: r.keyMarks, r.dispatches + 1, r.punctFinal⟩
              else
                -- success handling: log, commit status, then relay or write
                let punctAfter := if heuristicRan then pr.2 else punctCount
                let successLog := mkRequestLog statusCode (retryCount + 1) none (some keyValue) isStream
                if isStream then
                  let sr := handleStreamingResponse settings channelType (env retryCount).stream
                  if settings.enableAdvancedRetry && !sr.1.isValid && sr.1.shouldRetry then
                    let newRetryErrors :=
                      retryErrors ++
                        [⟨500, sr.1.errorMessage,
                          sr.1.errorType ++ str (": ") ++ sr.1.errorMessage,
                          keyValue, retryCount + 1, upstreamURL⟩]
                    let r := executeRequestWithRetry ext env cfg settings channelType
                      bodyBytes isStream (retryCount + 1) newRetryErrors ([] : Str) punctAfter
                    ⟨.statusLine statusCode :: (sr.2.2 ++ r.writes), successLog :: r.logs,
                     (keyValue, false) :: r.keyMarks, r.dispatches + 1, r.punctFinal⟩
                  else
                    ⟨.statusLine statusCode :: (sr.2.2 ++ [.bodyWrite sr.2.1]), [successLog],
                     [], 1, punctAfter⟩
                else
                  ⟨.statusLine statusCode ::
                     handleNormalResponse ext settings channelType respBody,
                   [successLog], [], 1, punctAfter⟩
  termination_by cfg.maxRetries + 1 - retryCount
  decreasing_by all_goals omega

/-- Whether a write event commits a client-visible response (a status line
or a structured error body, as opposed to streamed payload bytes). -/
def isClientResponse : WriteEvent → Bool
  | .errorJson _ _ => true
  | .errorResponse _ _ => true
  | .statusLine _ => true
  | _ => false

/-- How many client-visible responses a write trace commits. -/
def responseWriteCount (ws : List WriteEvent) : Nat := ws.countP isClientResponse

/-! ### One-step unfolding lemmas for the engine -/

theorem exec_exhausted_some_step (ext : Externals) (env : Nat → AttemptEnv)
    (cfg : EffectiveConfig) (settings : SystemSettings) (channelType : Str)
    (bodyBytes : Str) (isStream : Bool) (retryCount : Nat)
    (retryErrors : List RetryError) (accumulatedText : Str) (punctCount : Nat)
    (lastError : RetryError)
    (hgt : cfg.maxRetries < retryCount)
    (hL : retryErrors.getLast? = some lastError) :
    executeRequestWithRetry ext env cfg settings channelType bodyBytes isStream
        retryCount retryErrors accumulatedText punctCount
      = ⟨[match ext.unmarshal lastError.errorMessage with
          | some _ => WriteEvent.errorJson lastError.statusCode lastError.errorMessage
          | none => WriteEvent.errorResponse lastError.statusCode lastError.errorMessage],
         [mkRequestLog lastError.statusCode retryCount
            (some (if lastError.parsedErrorMessage == ([] : Str) then lastError.errorMessage
                   else lastError.parsedErrorMessage))
            (some lastError.keyValue) isStream],
         [], 0, punctCount⟩ := by
  rw [executeRequestWithRetry.eq_def, dif_pos hgt]
  simp only [hL]

theorem exec_exhausted_none_step (ext : Externals) (env : Nat → AttemptEnv)
    (cfg : EffectiveConfig) (settings : SystemSettings) (channelType : Str)
    (bodyBytes : Str) (isStream : Bool) (retryCount : Nat)
    (accumulatedText : Str) (punctCount : Nat)
    (hgt : cfg.maxRetries < retryCount) :
    executeRequestWithRetry ext env cfg settings channelType bodyBytes isStream
        retryCount [] accumulatedText punctCount
      = ⟨[.errorResponse 503 maxRetriesMsg],
         [mkRequestLog 503 retryCount (some maxRetriesMsg) none isStream],
         [], 0, punctCount⟩ := by
  rw [executeRequestWithRetry.eq_def, dif_pos hgt]
  simp only [List.getLast?_nil]

theorem exec_url_failure_step (ext : Externals) (env : Nat → AttemptEnv)
    (cfg : EffectiveConfig) (settings : SystemSettings) (channelType : Str)
    (bodyBytes : Str) (isStream : Bool) (retryCount : Nat)
    (retryErrors : List RetryError) (accumulatedText : Str) (punctCount : Nat)
    (keyValue errMsg : Str)
    (hle : retryCount ≤ cfg.maxRetries)
    (hsel : (env retryCount).selectKey = Except.ok keyValue)
    (hurl : (env retryCount).buildURL = Except.error errMsg) :
    executeRequestWithRetry ext env cfg settings channelType bodyBytes isStream
        retryCount retryErrors accumulatedText punctCount
      = ⟨[.errorResponse 500 (str ("Failed to build upstream URL: ") ++ errMsg)],
         [], [], 0, punctCount⟩ := by
  rw [executeRequestWithRetry.eq_def]
  rw [dif_neg (by omega : ¬cfg.maxRetries < retryCount)]
  simp only [hsel, hurl]

theorem exec_request_failure_step (ext : Externals) (env : Nat → AttemptEnv)
    (cfg : EffectiveConfig) (settings : SystemSettings) (channelType : Str)
    (bodyBytes : Str) (isStream : Bool) (retryCount : Nat)
    (retryErrors : List RetryError) (accumulatedText : Str) (punctCount : Nat)
    (keyValue upstreamURL errMsg : Str)
    (hle : retryCount ≤ cfg.maxRetries)
    (hsel : (env retryCount).selectKey = Except.ok keyValue)
    (hurl : (env retryCount).buildURL = Except.ok upstreamURL)
    (hreq : (env retryCount).newRequest = some errMsg) :
    executeRequestWithRetry ext env cfg settings channelType bodyBytes isStream
        retryCount retryErrors accumulatedText punctCount
      = ⟨[.errorResponse 500 internalServerMsg], [], [], 0, punctCount⟩ := by
  rw [executeRequestWithRetry.eq_def]
  rw [dif_neg (by omega : ¬cfg.maxRetries < retryCount)]
  simp only [hsel, hurl, hreq]

theorem exec_ignorable_abort_step (ext : Externals) (env : Nat → AttemptEnv)
    (cfg : EffectiveConfig) (settings : SystemSettings) (channelType : Str)
    (bodyBytes : Str) (isStream : Bool) (retryCount : Nat)
    (retryErrors : List RetryError) (accumulatedText : Str) (punctCount : Nat)
    (keyValue upstreamURL errMsg : Str)
    (hle : retryCount ≤ cfg.maxRetries)
    (hsel : (env retryCount).selectKey = Except.ok keyValue)
    (hurl : (env retryCount).buildURL = Except.ok upstreamURL)
    (hreq : (env retryCount).newRequest = none)
    (hdisp : (env retryCount).dispatch = DispatchResult.transportErr true errMsg) :
    executeRequestWithRetry ext env cfg settings channelType bodyBytes isStream
        retryCount retryErrors accumulatedText punctCount
      = ⟨[], [mkRequestLog 499 (retryCount + 1) (some errMsg) (some keyValue) isStream],
         [], 1, punctCount⟩ := by
  rw [executeRequestWithRetry.eq_def]
  rw [dif_neg (by omega : ¬cfg.maxRetries < retryCount)]
  simp only [hsel, hurl, hreq, hdisp, if_true, ite_true]

theorem exec_transport_retry_step (ext : Externals) (env : Nat → AttemptEnv)
    (cfg : EffectiveConfig) (settings : SystemSettings) (channelType : Str)
    (bodyBytes : Str) (isStream : Bool) (retryCount : Nat)
    (retryErrors : List RetryError) (accumulatedText : Str) (punctCount : Nat)
    (keyValue upstreamURL errMsg : Str)
    (hle : retryCount ≤ cfg.maxRetries)
    (hsel : (env retryCount).selectKey = Except.ok keyValue)
    (hurl : (env retryCount).buildURL = Except.ok upstreamURL)
    (hreq : (env retryCount).newRequest = none)
    (hdisp : (env retryCount).dispatch = DispatchResult.transportErr false errMsg) :
    executeRequestWithRetry ext env cfg settings channelType bodyBytes isStream
        retryCount retryErrors accumulatedText punctCount
      = (let r := executeRequestWithRetry ext env cfg settings channelType
           bodyBytes isStream (retryCount + 1)
           (retryErrors ++ [⟨500, errMsg, [], keyValue, retryCount + 1, upstreamURL⟩])
           accumulatedText punctCount
         ⟨r.writes, r.logs, (keyValue, false) :: r.keyMarks, r.dispatches + 1, r.punctFinal⟩) := by
  rw [executeRequestWithRetry.eq_def]
  rw [dif_neg (by omega : ¬cfg.maxRetries < retryCount)]
  simp only [hsel, hurl, hreq, hdisp, Bool.false_eq_true, if_false, ite_false]

theorem exec_http_error_retry_step (ext : Externals) (env : Nat → AttemptEnv)
    (cfg : EffectiveConfig) (settings : SystemSettings) (channelType : Str)
    (bodyBytes : Str) (isStream : Bool) (retryCount : Nat)
    (retryErrors : List RetryError) (accumulatedText : Str) (punctCount : Nat)
    (keyValue upstreamURL : Str) (statusCode : Nat) (respBody : Str)
    (hle : retryCount ≤ cfg.maxRetries)
    (hsel : (env retryCount).selectKey = Except.ok keyValue)
    (hurl : (env retryCount).buildURL = Except.ok upstreamURL)
    (hreq : (env retryCount).newRequest = none)
    (hdisp : (env retryCount).dispatch = DispatchResult.httpResponse statusCode respBody)
    (hge : 400 ≤ statusCode) (h404 : statusCode ≠ 404) :
    executeRequestWithRetry ext env cfg settings channelType bodyBytes isStream
        retryCount retryErrors accumulatedText punctCount
      = (let r := executeRequestWithRetry ext env cfg settings channelType
           bodyBytes isStream (retryCount + 1)
           (retryErrors ++
             [⟨statusCode, respBody, ext.parseUpstreamErr respBody, keyValue,
               retryCount + 1, upstreamURL⟩])
           accumulatedText punctCount
         ⟨r.writes, r.logs, (keyValue, false) :: r.keyMarks, r.dispatches + 1, r.punctFinal⟩) := by
  rw [executeRequestWithRetry.eq_def]
  rw [dif_neg (by omega : ¬cfg.maxRetries < retryCount)]
  simp only [hsel, hurl, hreq, hdisp, if_pos (And.intro hge h404)]

theorem exec_stream_retry_step (ext : Externals) (env : Nat → AttemptEnv)
    (cfg : EffectiveConfig) (settings : SystemSettings) (channelType : Str)
    (bodyBytes : Str) (retryCount : Nat)
    (retryErrors : List RetryError) (accumulatedText : Str) (punctCount : Nat)
    (keyValue upstreamURL : Str) (statusCode : Nat) (respBody : Str)
    (hle : retryCount ≤ cfg.maxRetries)
    (hsel : (env retryCount).selectKey = Except.ok keyValue)
    (hurl : (env retryCount).buildURL = Except.ok upstreamURL)
    (hreq : (env retryCount).newRequest = none)
    (hdisp : (env retryCount).dispatch = DispatchResult.httpResponse statusCode respBody)
    (hok : ¬(400 ≤ statusCode ∧ statusCode ≠ 404))
    (hadv : settings.enableAdvancedRetry = true)
    (hinv : (handleStreamingResponse settings channelType (env retryCount).stream).1.isValid
        = false)
    (hretry : (handleStreamingResponse settings channelType (env retryCount).stream).1.shouldRetry
        = true) :
    executeRequestWithRetry ext env cfg settings channelType bodyBytes true
        retryCount retryErrors accumulatedText punctCount
      = (let sr := handleStreamingResponse settings channelType (env retryCount).stream
         let r := executeRequestWithRetry ext env cfg settings channelType
           bodyBytes true (retryCount + 1)
           (retryErrors ++
             [⟨500, sr.1.errorMessage, sr.1.errorType ++ str (": ") ++ sr.1.errorMessage,
               keyValue, retryCount + 1, upstreamURL⟩])
           ([] : Str) punctCount
         ⟨WriteEvent.statusLine statusCode :: (sr.2.2 ++ r.writes),
          mkRequestLog statusCode (retryCount + 1) none (some keyValue) true :: r.logs,
          (keyValue, false) :: r.keyMarks, r.dispatches + 1, r.punctFinal⟩) := by
  rw [executeRequestWithRetry.eq_def]
  rw [dif_neg (by omega : ¬cfg.maxRetries < retryCount)]
  simp only [hsel, hurl, hreq, hdisp, if_neg hok, hadv, hinv, hretry, Bool.false_and,
    Bool.not_false, Bool.and_false, Bool.and_true, Bool.true_and, Bool.not_true,
    Bool.false_eq_true, if_false, ite_false, ite_true]

theorem exec_success_nonstream_noadv_step (ext : Externals) (env : Nat → AttemptEnv)
    (cfg : EffectiveConfig) (settings : SystemSettings) (channelType : Str)
    (bodyBytes : Str) (retryCount : Nat)
    (retryErrors : List RetryError) (accumulatedText : Str) (punctCount : Nat)
    (keyValue upstreamURL : Str) (statusCode : Nat) (respBody : Str)
    (hle : retryCount ≤ cfg.maxRetries)
    (hsel : (env retryCount).selectKey = Except.ok keyValue)
    (hurl : (env retryCount).buildURL = Except.ok upstreamURL)
    (hreq : (env retryCount).newRequest = none)
    (hdisp : (env retryCount).dispatch = DispatchResult.httpResponse statusCode respBody)
    (hok : ¬(400 ≤ statusCode ∧ statusCode ≠ 404))
    (hadv : settings.enableAdvancedRetry = false) :
    executeRequestWithRetry ext env cfg settings channelType bodyBytes false
        retryCount retryErrors accumulatedText punctCount
      = ⟨WriteEvent.statusLine statusCode ::
           handleNormalResponse ext settings channelType respBody,
         [mkRequestLog statusCode (retryCount + 1) none (some keyValue) false],
         [], 1, punctCount⟩ := by
  rw [executeRequestWithRetry.eq_def]
  rw [dif_neg (by omega : ¬cfg.maxRetries < retryCount)]
  simp only [hsel, hurl, hreq, hdisp, if_neg hok, hadv, Bool.false_and, Bool.and_false,
    Bool.true_and, Bool.not_true, Bool.false_eq_true, Bool.not_false, if_false,
    ite_false, ite_true]

/-- A concrete oracle for witnesses: no body parses as JSON. -/
def oracleNone : Externals := ⟨fun _ => none, fun _ => [], fun s => s⟩

/-- A concrete oracle for the punctuation-heuristic witness: body `"P"`
decodes to an OpenAI-shaped object whose text ends in `。`, body `"N"` to
one whose text has no terminal punctuation; everything else fails to parse. -/
def oraclePunct : Externals :=
  ⟨fun s =>
    if s == str ("P") then
      some [(str ("choices"),
             GoValue.vArr [GoValue.vObj [(str ("message"),
               GoValue.vObj [(str ("content"), GoValue.vStr (str ("好。")))])]])]
    else if s == str ("N") then
      some [(str ("choices"),
             GoValue.vArr [GoValue.vObj [(str ("message"),
               GoValue.vObj [(str ("content"), GoValue.vStr (str ("abc")))])]])]
    else none,
   fun _ => [], fun s => s⟩

/-- Claim C5, counterexample: a buffered stream body with no terminal marker
and no data payload is classified `EMPTY_RESPONSE`, not `INCOMPLETE_STREAM` —
the content check runs before the terminal-marker check. -/
theorem c5_counterexample :
    containsB (str ("data:\n")) (str ("data: [DONE]")) = false ∧
    (ResponseValidator.ValidateStreamResponse (str ("data:\n")) (str ("openai"))).errorType
      ≠ str ("INCOMPLETE_STREAM") := by
  constructor
  · decide
  · decide

/-- Claim C5, amended: stream validation checks content first — a body with
no non-sentinel payload is `EMPTY_RESPONSE` (retryable); a body with payload
but no terminal marker is `INCOMPLETE_STREAM` (retryable); a body with
payload and the terminal marker is valid. -/
theorem c5_stream_validation (body provider : Str) :
    (ResponseValidator.hasNonEmptyStreamContent body provider = false →
      ResponseValidator.ValidateStreamResponse body provider
        = ⟨false, str ("EMPTY_RESPONSE"),
           str ("Stream response contained no meaningful content."), true⟩)
  ∧ (ResponseValidator.hasNonEmptyStreamContent body provider = true →
      containsB body (str ("data: [DONE]")) = false →
      ResponseValidator.ValidateStreamResponse body provider
        = ⟨false, str ("INCOMPLETE_STREAM"),
           str ("Stream ended prematurely without the [DONE] marker."), true⟩)
  ∧ (ResponseValidator.hasNonEmptyStreamContent body provider = true →
      containsB body (str ("data: [DONE]")) = true →
      ResponseValidator.ValidateStreamResponse body provider = ValidationResult.ok) := by
  refine ⟨fun h1 => ?_, fun h1 h2 => ?_, fun h1 h2 => ?_⟩
  · simp [ResponseValidator.ValidateStreamResponse, h1]
  · simp [ResponseValidator.ValidateStreamResponse, h1, h2]
  · simp [ResponseValidator.ValidateStreamResponse, h1, h2, ValidationResult.ok]

/-- Claim C5, witness: a body with payload but no terminal marker is
`INCOMPLETE_STREAM`. -/
theorem c5_witness :
    ResponseValidator.ValidateStreamResponse (str ("data: x\n")) (str ("openai"))
      = ⟨false, str ("INCOMPLETE_STREAM"),
         str ("Stream ended prematurely without the [DONE] marker."), true⟩ :=
  (c5_stream_validation (str ("data: x\n")) (str ("openai"))).2.1 (by decide) (by decide)

/-- Claim C8: a non-streaming body containing the marker
`"completion_tokens":0` validates as `EMPTY_RESPONSE`, retryable; the
non-streaming checks run in the fixed order empty, blocked, abnormal-finish,
incomplete, first match winning, and a body matching none of them is valid. -/
theorem c8_validate_response_order (ext : Externals) (body provider : Str) :
    (containsB body (str ("\"completion_tokens\":0")) = true →
      ResponseValidator.ValidateResponse ext body provider false
        = ⟨false, str ("EMPTY_RESPONSE"),
           str ("AI service returned empty content (completion_tokens: 0)"), true⟩)
  ∧ (ResponseValidator.isEmptyResponse ext body = false →
      ResponseValidator.isBlockedResponse body = true →
      ResponseValidator.ValidateResponse ext body provider false
        = ⟨false, str ("BLOCKED_CONTENT"),
           str ("Content was blocked by safety filters"), true⟩)
  ∧ (ResponseValidator.isEmptyResponse ext body = false →
      ResponseValidator.isBlockedResponse body = false →
      (ResponseValidator.getAbnormalFinishReason body == ([] : Str)) = false →
      ResponseValidator.ValidateResponse ext body provider false
        = ⟨false, str ("ABNORMAL_FINISH"),
           str ("Response ended with abnormal reason: ")
             ++ ResponseValidator.getAbnormalFinishReason body, true⟩)
  ∧ (ResponseValidator.isEmptyResponse ext body = false →
      ResponseValidator.isBlockedResponse body = false →
      ResponseValidator.getAbnormalFinishReason body = ([] : Str) →
      ResponseValidator.isIncompleteResponse ext body = true →
      ResponseValidator.ValidateResponse ext body provider false
        = ⟨false, str ("INCOMPLETE_RESPONSE"),
           str ("Response appears incomplete (missing completion token)"), true⟩)
  ∧ (ResponseValidator.isEmptyResponse ext body = false →
      ResponseValidator.isBlockedResponse body = false →
      ResponseValidator.getAbnormalFinishReason body = ([] : Str) →
      ResponseValidator.isIncompleteResponse ext body = false →
      ResponseValidator.ValidateResponse ext body provider false = ValidationResult.ok) := by
  refine ⟨fun h1 => ?_, fun h1 h2 => ?_, fun h1 h2 h3 => ?_,
          fun h1 h2 h3 h4 => ?_, fun h1 h2 h3 h4 => ?_⟩
  · have he : ResponseValidator.isEmptyResponse ext body = true := by
      simp [ResponseValidator.isEmptyResponse, h1]
    simp [ResponseValidator.ValidateResponse, he]
  · simp [ResponseValidator.ValidateResponse, h1, h2]
  · simp [ResponseValidator.ValidateResponse, h1, h2, h3, bne]
  · simp [ResponseValidator.ValidateResponse, h1, h2, h3, h4]
  · simp [ResponseValidator.ValidateResponse, h1, h2, h3, h4]

/-- Claim C8, witness: a body carrying both the token-count-zero marker and
a blocked-content marker is `EMPTY_RESPONSE` (empty check wins), and a body
matching no check is valid. -/
theorem c8_witness :
    ResponseValidator.ValidateResponse oracleNone
        (str ("\"completion_tokens\":0 content_filter")) (str ("openai")) false
      = ⟨false, str ("EMPTY_RESPONSE"),
         str ("AI service returned empty content (completion_tokens: 0)"), true⟩
  ∧ ResponseValidator.ValidateResponse oracleNone (str ("ok")) (str ("openai")) false
      = ValidationResult.ok :=
  ⟨(c8_validate_response_order oracleNone
      (str ("\"completion_tokens\":0 content_filter")) (str ("openai"))).1 (by decide),
   (c8_validate_response_order oracleNone (str ("ok")) (str ("openai"))).2.2.2.2
      (by decide) (by decide) (by decide) (by decide)⟩

/-- Claim C9: with the heuristic disabled the check always returns false and
leaves the streak; with it enabled, an empty extraction or a text not ending
in terminal punctuation resets the streak and returns false, and three
consecutive punctuation-terminated calls starting from streak zero return
false, false, true, the third resetting the streak to zero. -/
theorem c9_punctuation_heuristic (ext : Externals) (provider : Str) (n : Nat)
    (b1 b2 b3 bE bN : Str) :
    (ResponseValidator.CheckPunctuationHeuristic ext n b1 provider false = (false, n))
  ∧ (ResponseValidator.extractResponseText ext bE provider = ([] : Str) →
      ResponseValidator.CheckPunctuationHeuristic ext n bE provider true = (false, 0))
  ∧ (ResponseValidator.extractResponseText ext bN provider ≠ ([] : Str) →
      ResponseValidator.endsWithSentencePunctuation
          (ResponseValidator.extractResponseText ext bN provider) = false →
      ResponseValidator.CheckPunctuationHeuristic ext n bN provider true = (false, 0))
  ∧ (ResponseValidator.extractResponseText ext b1 provider ≠ ([] : Str) →
      ResponseValidator.endsWithSentencePunctuation
          (ResponseValidator.extractResponseText ext b1 provider) = true →
      ResponseValidator.CheckPunctuationHeuristic ext 0 b1 provider true = (false, 1))
  ∧ (ResponseValidator.extractResponseText ext b2 provider ≠ ([] : Str) →
      ResponseValidator.endsWithSentencePunctuation
          (ResponseValidator.extractResponseText ext b2 provider) = true →
      ResponseValidator.CheckPunctuationHeuristic ext 1 b2 provider true = (false, 2))
  ∧ (ResponseValidator.extractResponseText ext b3 provider ≠ ([] : Str) →
      ResponseValidator.endsWithSentencePunctuation
          (ResponseValidator.extractResponseText ext b3 provider) = true →
      ResponseValidator.CheckPunctuationHeuristic ext 2 b3 provider true = (true, 0)) := by
  refine ⟨?_, fun h1 => ?_, fun h1 h2 => ?_, fun h1 h2 => ?_, fun h1 h2 => ?_,
          fun h1 h2 => ?_⟩
  · simp [ResponseValidator.CheckPunctuationHeuristic]
  · simp [ResponseValidator.CheckPunctuationHeuristic, h1]
  · simp [ResponseValidator.CheckPunctuationHeuristic, h1, h2]
  · simp [ResponseValidator.CheckPunctuationHeuristic, h1, h2]
  · simp [ResponseValidator.CheckPunctuationHeuristic, h1, h2]
  · simp [ResponseValidator.CheckPunctuationHeuristic, h1, h2]

/-- Claim C9, witness: concrete decoded bodies exercising the heuristic
scenarios (streak of three, reset on empty, reset on non-punctuation,
disabled). -/
theorem c9_witness :
    ResponseValidator.CheckPunctuationHeuristic oraclePunct 5 (str ("P")) (str ("openai")) false
        = (false, 5)
  ∧ ResponseValidator.CheckPunctuationHeuristic oraclePunct 2 (str ("E")) (str ("openai")) true
        = (false, 0)
  ∧ ResponseValidator.CheckPunctuationHeuristic oraclePunct 2 (str ("N")) (str ("openai")) true
        = (false, 0)
  ∧ ResponseValidator.CheckPunctuationHeuristic oraclePunct 0 (str ("P")) (str ("openai")) true
        = (false, 1)
  ∧ ResponseValidator.CheckPunctuationHeuristic oraclePunct 1 (str ("P")) (str ("openai")) true
        = (false, 2)
  ∧ ResponseValidator.CheckPunctuationHeuristic oraclePunct 2 (str ("P")) (str ("openai")) true
        = (true, 0) := by
  have h := c9_punctuation_heuristic oraclePunct (str ("openai")) 5
    (str ("P")) (str ("P")) (str ("P")) (str ("E")) (str ("N"))
  have h2 := c9_punctuation_heuristic oraclePunct (str ("openai")) 2
    (str ("P")) (str ("P")) (str ("P")) (str ("E")) (str ("N"))
  exact ⟨h.1, h2.2.1 (by decide), h2.2.2.1 (by decide) (by decide),
         h.2.2.2.1 (by decide) (by decide), h.2.2.2.2.1 (by decide) (by decide),
         h.2.2.2.2.2 (by decide) (by decide)⟩

/-- Claim C10: blocked-content detection is substring-based — any
non-streaming body containing `blockReason` or `content_filter` anywhere
that does not first match the empty check validates as `BLOCKED_CONTENT`,
retryable, regardless of JSON structure. -/
theorem c10_blocked_substring (ext : Externals) (body provider : Str)
    (h1 : ResponseValidator.isEmptyResponse ext body = false)
    (h2 : containsB body (str ("blockReason")) = true ∨
          containsB body (str ("content_filter")) = true) :
    ResponseValidator.ValidateResponse ext body provider false
      = ⟨false, str ("BLOCKED_CONTENT"),
         str ("Content was blocked by safety filters"), true⟩ := by
  have hb : ResponseValidator.isBlockedResponse body = true := by
    rcases h2 with h | h <;> simp [ResponseValidator.isBlockedResponse, h]
  simp [ResponseValidator.ValidateResponse, h1, hb]

/-- Claim C10, witness: the marker inside ordinary text still triggers the
blocked classification. -/
theorem c10_witness :
    ResponseValidator.ValidateResponse oracleNone
        (str ("the model said content_filter in prose")) (str ("gemini")) false
      = ⟨false, str ("BLOCKED_CONTENT"),
         str ("Content was blocked by safety filters"), true⟩ :=
  c10_blocked_substring oracleNone (str ("the model said content_filter in prose"))
    (str ("gemini")) (by decide) (Or.inr (by decide))

/-! ### Trimming lemmas -/

theorem dropWhile_self_dropWhile (p : Char → Bool) (l : Str) :
    (l.dropWhile p).dropWhile p = l.dropWhile p := by
  induction l with
  | nil => rfl
  | cons a t ih =>
      cases h : p a with
      | true => rw [List.dropWhile_cons, h]; simpa using ih
      | false => rw [List.dropWhile_cons, h]; simp [List.dropWhile_cons, h]

theorem head_false_of_dropWhile (p : Char → Bool) (l : Str) (a : Char) (t : Str)
    (h : l.dropWhile p = a :: t) : p a = false := by
  induction l with
  | nil => simp [List.dropWhile] at h
  | cons b q ih =>
      rw [List.dropWhile_cons] at h
      cases hb : p b with
      | true => rw [hb] at h; simp at h; exact ih h
      | false => rw [hb] at h; simp at h; rw [← h.1]; exact hb

theorem getLast?_dropWhile (p : Char → Bool) (l : Str) (h : l.dropWhile p ≠ []) :
    (l.dropWhile p).getLast? = l.getLast? := by
  induction l with
  | nil => simp at h
  | cons b q ih =>
      rw [List.dropWhile_cons] at h ⊢
      cases hb : p b with
      | false => simp
      | true =>
          rw [hb] at h
          simp only [if_true] at h
          simp only [if_true]
          have hq : q ≠ [] := by
            intro e; rw [e] at h; simp at h
          rw [ih h]
          cases q with
          | nil => exact absurd rfl hq
          | cons c r => simp

theorem dropWhile_eq_self_of_head (p : Char → Bool) (l : Str)
    (h : ∀ a, l.head? = some a → p a = false) : l.dropWhile p = l := by
  cases l with
  | nil => rfl
  | cons b q => rw [List.dropWhile_cons, h b rfl]; simp

theorem trimSpaceGo_idem (l : Str) : trimSpaceGo (trimSpaceGo l) = trimSpaceGo l := by
  unfold trimSpaceGo
  by_cases hD : (l.dropWhile goIsSpace).reverse.dropWhile goIsSpace = []
  · rw [hD]; simp
  · have hAne : l.dropWhile goIsSpace ≠ [] := by
      intro e; rw [e] at hD; simp at hD
    obtain ⟨a, t, hAt⟩ : ∃ a t, l.dropWhile goIsSpace = a :: t := by
      cases hA : l.dropWhile goIsSpace with
      | nil => exact absurd hA hAne
      | cons a t => exact ⟨a, t, rfl⟩
    have hpa : goIsSpace a = false := head_false_of_dropWhile _ _ _ _ hAt
    have hhead :
        ((l.dropWhile goIsSpace).reverse.dropWhile goIsSpace).reverse.head? = some a := by
      rw [List.head?_reverse, getLast?_dropWhile _ _ hD, List.getLast?_reverse, hAt]
      rfl
    have h1 :
        ((l.dropWhile goIsSpace).reverse.dropWhile goIsSpace).reverse.dropWhile goIsSpace
          = ((l.dropWhile goIsSpace).reverse.dropWhile goIsSpace).reverse := by
      apply dropWhile_eq_self_of_head
      intro b hb
      rw [hhead] at hb
      cases hb
      exact hpa
    rw [h1, List.reverse_reverse, dropWhile_self_dropWhile]

theorem cleanTokenFromText_trimmed (x : Str) :
    trimSpaceGo (PromptInjector.cleanTokenFromText x) = PromptInjector.cleanTokenFromText x := by
  unfold PromptInjector.cleanTokenFromText
  cases h : endsWithB CompletionToken (trimSpaceGo x) with
  | true => simp [h, trimSpaceGo_idem]
  | false => simp [h, trimSpaceGo_idem]

theorem cleanTokenFromText_eq_self (y : Str) (h1 : trimSpaceGo y = y)
    (h2 : endsWithB CompletionToken y = false) :
    PromptInjector.cleanTokenFromText y = y := by
  unfold PromptInjector.cleanTokenFromText
  rw [h1]
  simp [h2]

/-- Claim C3, counterexample: `cleanTokenFromText` is not idempotent.  On the
input `"abc [done] [done]"` one application yields `"abc [done]"`, and a
second application strips the remaining trailing sentinel. -/
theorem c3_counterexample :
    PromptInjector.cleanTokenFromText
        (PromptInjector.cleanTokenFromText (str ("abc [done] [done]")))
      ≠ PromptInjector.cleanTokenFromText (str ("abc [done] [done]")) := by
  decide

/-- Claim C3, amended: `cleanTokenFromText` trims white space, removes exactly
one trailing occurrence of the sentinel, and trims again; applying it twice
yields the same result as once provided the result of the first application does
not itself still end in the sentinel. -/
theorem c3_strip_sentinel_conditionally_idempotent (x : Str)
    (h : endsWithB CompletionToken (PromptInjector.cleanTokenFromText x) = false) :
    PromptInjector.cleanTokenFromText (PromptInjector.cleanTokenFromText x)
      = PromptInjector.cleanTokenFromText x :=
  cleanTokenFromText_eq_self _ (cleanTokenFromText_trimmed x) h

/-- Claim C3, witness for the amended theorem at the input `"hi [done]"`. -/
theorem c3_witness :
    endsWithB CompletionToken (PromptInjector.cleanTokenFromText (str ("hi [done]"))) = false
      ∧ PromptInjector.cleanTokenFromText
            (PromptInjector.cleanTokenFromText (str ("hi [done]")))
          = PromptInjector.cleanTokenFromText (str ("hi [done]")) :=
  ⟨by decide, c3_strip_sentinel_conditionally_idempotent _ (by decide)⟩


/-! ### Engine-level theorems -/

theorem exec_dispatches_le (ext : Externals) (env : Nat → AttemptEnv)
    (cfg : EffectiveConfig) (settings : SystemSettings) (channelType : Str) :
    ∀ (bodyBytes : Str) (isStream : Bool) (retryCount : Nat) (retryErrors : List RetryError)
      (accumulatedText : Str) (punctCount : Nat),
      (executeRequestWithRetry ext env cfg settings channelType bodyBytes isStream
        retryCount retryErrors accumulatedText punctCount).dispatches
        ≤ cfg.maxRetries + 1 - retryCount := by
  intro bodyBytes isStream retryCount retryErrors accumulatedText punctCount
  induction bodyBytes, isStream, retryCount, retryErrors, accumulatedText, punctCount
    using executeRequestWithRetry.induct ext env cfg settings channelType
  case case1 =>
    rename_i hgt lastError hL
    rw [executeRequestWithRetry.eq_def, dif_pos hgt]
    simp only [hL]
    omega
  case case2 =>
    rename_i hgt hL
    rw [executeRequestWithRetry.eq_def, dif_pos hgt]
    simp only [hL]
    omega
  case case3 =>
    rename_i hgt errMsg hsel
    rw [executeRequestWithRetry.eq_def, dif_neg hgt]
    simp only [hsel]
    omega
  case case4 =>
    rename_i hgt keyValue hsel errMsg hurl
    rw [executeRequestWithRetry.eq_def, dif_neg hgt]
    simp only [hsel, hurl]
    omega
  case case5 =>
    rename_i hgt keyValue hsel upstreamURL hurl reqMsg hreq
    rw [executeRequestWithRetry.eq_def, dif_neg hgt]
    simp only [hsel, hurl, hreq]
    omega
  case case6 =>
    rename_i hgt keyValue hsel upstreamURL hurl hreq errMsg hdisp
    rw [executeRequestWithRetry.eq_def, dif_neg hgt]
    simp only [hsel, hurl, hreq, hdisp, if_true, ite_true]
    omega
  case case7 =>
    rename_i hgt keyValue hsel upstreamURL hurl hreq ignorable errMsg hdisp hnign nre ih
    have hif : ignorable = false := by simpa using hnign
    subst hif
    rw [executeRequestWithRetry.eq_def, dif_neg hgt]
    simp only [hsel, hurl, hreq, hdisp, Bool.false_eq_true, if_false, ite_false]
    unfold_let nre at ih
    exact le_trans (Nat.add_le_add_right ih 1) (by omega)
  case case8 =>
    rename_i hgt keyValue hsel upstreamURL hurl hreq statusCode respBody hdisp hcond nre ih
    rw [executeRequestWithRetry.eq_def, dif_neg hgt]
    simp only [hsel, hurl, hreq, hdisp, if_pos hcond]
    unfold_let nre at ih
    exact le_trans (Nat.add_le_add_right ih 1) (by omega)
  case case9 =>
    rename_i hgt keyValue hsel upstreamURL hurl hreq statusCode respBody hdisp hcond vr hr pr hret ctx nre ih
    rw [executeRequestWithRetry.eq_def, dif_neg hgt]
    simp only [hsel, hurl, hreq, hdisp, if_neg hcond]
    unfold_let nre ctx pr hr vr at ih hret
    simp only [hret, if_true, ite_true]
    exact le_trans (Nat.add_le_add_right ih 1) (by omega)
  case case10 =>
    rename_i hgt keyValue hsel upstreamURL hurl hreq statusCode respBody hdisp hcond pr sr hsret nre vr hr hnret punctAfter ih
    rw [executeRequestWithRetry.eq_def, dif_neg hgt]
    simp only [hsel, hurl, hreq, hdisp, if_neg hcond]
    unfold_let punctAfter nre sr pr hr vr at ih hsret hnret
    simp only [Bool.not_eq_true] at hnret
    simp only [hnret, hsret, Bool.false_eq_true, if_false, ite_false, if_true, ite_true]
    exact le_trans (Nat.add_le_add_right ih 1) (by omega)
  case case11 =>
    rename_i hgt keyValue hsel upstreamURL hurl hreq statusCode respBody hdisp hcond pr sr hnsret vr hr hnret
    rw [executeRequestWithRetry.eq_def, dif_neg hgt]
    simp only [hsel, hurl, hreq, hdisp, if_neg hcond]
    unfold_let sr pr hr vr at hnsret hnret
    simp only [Bool.not_eq_true] at hnret hnsret
    simp only [hnret, hnsret, Bool.false_eq_true, if_false, ite_false, if_true, ite_true]
    omega
  case case12 =>
    rename_i hgt keyValue hsel upstreamURL hurl hreq statusCode respBody hdisp hcond vr hr pr hnret hns
    rw [executeRequestWithRetry.eq_def, dif_neg hgt]
    simp only [hsel, hurl, hreq, hdisp, if_neg hcond]
    unfold_let pr hr vr at hnret
    simp only [Bool.not_eq_true] at hnret hns
    subst hns
    simp only [hnret, Bool.false_eq_true, if_false, ite_false, if_true, ite_true]
    omega

theorem responseWriteCount_cons (w : WriteEvent) (l : List WriteEvent) :
    responseWriteCount (w :: l)
      = responseWriteCount l + (if isClientResponse w then 1 else 0) := by
  simp [responseWriteCount, List.countP_cons]

theorem responseWriteCount_append (l1 l2 : List WriteEvent) :
    responseWriteCount (l1 ++ l2) = responseWriteCount l1 + responseWriteCount l2 := by
  simp [responseWriteCount, List.countP_append]

theorem exec_exhausted_counts (ext : Externals) (env : Nat → AttemptEnv)
    (cfg : EffectiveConfig) (settings : SystemSettings) (channelType : Str)
    (bodyBytes : Str) (isStream : Bool) (retryCount : Nat) (retryErrors : List RetryError)
    (accumulatedText : Str) (punctCount : Nat)
    (hgt : cfg.maxRetries < retryCount) :
    (executeRequestWithRetry ext env cfg settings channelType bodyBytes isStream
      retryCount retryErrors accumulatedText punctCount).logs.length = 1
  ∧ responseWriteCount (executeRequestWithRetry ext env cfg settings channelType
      bodyBytes isStream retryCount retryErrors accumulatedText punctCount).writes = 1 := by
  rw [executeRequestWithRetry.eq_def, dif_pos hgt]
  rcases hL : retryErrors.getLast? with _ | le
  · simp [responseWriteCount, isClientResponse]
  · rcases hu : ext.unmarshal le.errorMessage with _ | v <;>
      simp [hu, responseWriteCount, isClientResponse]

/-- Claim C1: entered with `retryCount = 0`, the engine performs at most
`MaxRetries + 1` upstream dispatch attempts; the retry recursion terminates
because every recursive call strictly increases `retryCount` and the engine
stops once `retryCount` exceeds `MaxRetries` (this is the well-founded
measure under which the model is defined). -/
theorem c1_engine_dispatch_bound (ext : Externals) (env : Nat → AttemptEnv)
    (cfg : EffectiveConfig) (settings : SystemSettings)
    (channelType bodyBytes : Str) (isStream : Bool) :
    (executeRequestWithRetry ext env cfg settings channelType bodyBytes isStream
      0 [] [] 0).dispatches ≤ cfg.maxRetries + 1 := by
  have h := exec_dispatches_le ext env cfg settings channelType bodyBytes isStream
    0 [] [] 0
  simpa using h

/-- Concrete environment for the streaming counterexamples: key selection
and request building succeed, the upstream answers 200 and streams one data
chunk that never carries the `[DONE]` terminal marker. -/
def envC2 : Nat → AttemptEnv :=
  fun _ => ⟨Except.ok (str ("k1")), Except.ok (str ("up")), none,
            DispatchResult.httpResponse 200 ([] : Str),
            ⟨true, [str ("data: hi\n\n")], none, none⟩⟩

/-- Concrete environment in which `BuildUpstreamURL` fails on every
attempt. -/
def envC2u : Nat → AttemptEnv :=
  fun _ => ⟨Except.ok (str ("k1")), Except.error (str ("bad path")), none,
            DispatchResult.httpResponse 200 ([] : Str),
            ⟨true, [], none, none⟩⟩

/-- Concrete environment in which the dispatch fails with a client-side
ignorable (client-abort) transport error. -/
def envC2a : Nat → AttemptEnv :=
  fun _ => ⟨Except.ok (str ("k1")), Except.ok (str ("up")), none,
            DispatchResult.transportErr true (str ("client gone")),
            ⟨true, [], none, none⟩⟩

/-- A group allowing no retries (`MaxRetries = 0`). -/
def cfgOne : EffectiveConfig := ⟨0, 30⟩

/-- Settings with advanced retry enabled and everything else off. -/
def settingsAdv : SystemSettings := ⟨false, true, false, false, 0⟩

/-- Claim C2, counterexample: three concrete runs refute the claim.  A
streaming attempt whose post-relay validation fails logs a success record
before validation and the terminal exhaustion path logs again, so that
request records two log entries and commits two client responses; a
request whose upstream URL cannot be built writes one response but records
no log at all; and a client-abort request logs once but writes no
response. -/
theorem c2_counterexample :
    ((executeRequestWithRetry oracleNone envC2 cfgOne settingsAdv (str ("openai"))
        (str ("req")) true 0 [] [] 0).logs.length = 2
      ∧ responseWriteCount (executeRequestWithRetry oracleNone envC2 cfgOne settingsAdv
          (str ("openai")) (str ("req")) true 0 [] [] 0).writes = 2)
  ∧ ((executeRequestWithRetry oracleNone envC2u cfgOne settingsAdv (str ("openai"))
        (str ("req")) false 0 [] [] 0).logs.length = 0
      ∧ responseWriteCount (executeRequestWithRetry oracleNone envC2u cfgOne settingsAdv
          (str ("openai")) (str ("req")) false 0 [] [] 0).writes = 1)
  ∧ ((executeRequestWithRetry oracleNone envC2a cfgOne settingsAdv (str ("openai"))
        (str ("req")) false 0 [] [] 0).logs.length = 1
      ∧ responseWriteCount (executeRequestWithRetry oracleNone envC2a cfgOne settingsAdv
          (str ("openai")) (str ("req")) false 0 [] [] 0).writes = 0) := by
  refine ⟨?_, ?_, ?_⟩
  · rw [exec_stream_retry_step oracleNone envC2 cfgOne settingsAdv (str ("openai"))
        (str ("req")) 0 [] [] 0 (str ("k1")) (str ("up")) 200 ([] : Str)
        (by decide) rfl rfl rfl rfl (by decide) rfl (by decide) (by decide)]
    have hsr : handleStreamingResponse settingsAdv (str ("openai")) ((envC2 0).stream)
        = (⟨false, str ("INCOMPLETE_STREAM"),
            str ("Stream ended prematurely without the [DONE] marker."), true⟩,
           str ("data: hi\n\n"), [WriteEvent.chunk (str ("data: hi\n\n"))]) := by decide
    dsimp only
    rw [hsr]
    dsimp only
    constructor
    · rw [List.length_cons,
        (exec_exhausted_counts _ _ _ _ _ _ _ _ _ _ _ (by decide)).1]
    · rw [responseWriteCount_cons, responseWriteCount_append,
        (exec_exhausted_counts _ _ _ _ _ _ _ _ _ _ _ (by decide)).2]
      decide
  · rw [exec_url_failure_step oracleNone envC2u cfgOne settingsAdv (str ("openai"))
        (str ("req")) false 0 [] [] 0 (str ("k1")) (str ("bad path"))
        (by decide) rfl rfl]
    constructor
    · decide
    · decide
  · rw [exec_ignorable_abort_step oracleNone envC2a cfgOne settingsAdv (str ("openai"))
        (str ("req")) false 0 [] [] 0 (str ("k1")) (str ("up")) (str ("client gone"))
        (by decide) rfl rfl rfl rfl]
    constructor
    · decide
    · decide

/-- Claim C2, amended: every non-streaming execution of the engine records
at most one log entry and commits at most one client response, and always
performs at least one of the two — that is, every terminal path produces
the pair (logs, responses) = (1,1), except the upstream-URL-build and
request-creation failures, which write one response but log nothing
(0,1), and the client-abort path, which logs once but writes nothing to
the gone client (1,0).  A streaming attempt, by contrast, logs a success
record and commits the upstream status before its post-relay validation,
so streaming requests can exceed both bounds by one per failed attempt. -/
theorem c2_nonstream_response_log_budget (ext : Externals) (env : Nat → AttemptEnv)
    (cfg : EffectiveConfig) (settings : SystemSettings) (channelType : Str) :
    ∀ (bodyBytes : Str) (isStream : Bool) (retryCount : Nat) (retryErrors : List RetryError)
      (accumulatedText : Str) (punctCount : Nat), isStream = false →
      (executeRequestWithRetry ext env cfg settings channelType bodyBytes isStream
        retryCount retryErrors accumulatedText punctCount).logs.length ≤ 1
      ∧ responseWriteCount (executeRequestWithRetry ext env cfg settings channelType
          bodyBytes isStream retryCount retryErrors accumulatedText punctCount).writes ≤ 1
      ∧ 1 ≤ (executeRequestWithRetry ext env cfg settings channelType bodyBytes isStream
          retryCount retryErrors accumulatedText punctCount).logs.length
          + responseWriteCount (executeRequestWithRetry ext env cfg settings channelType
              bodyBytes isStream retryCount retryErrors accumulatedText punctCount).writes := by
  intro bodyBytes isStream retryCount retryErrors accumulatedText punctCount
  induction bodyBytes, isStream, retryCount, retryErrors, accumulatedText, punctCount
    using executeRequestWithRetry.induct ext env cfg settings channelType
  case case1 =>
    rename_i hgt lastError hL
    intro hfs
    rw [executeRequestWithRetry.eq_def, dif_pos hgt]
    simp only [hL]
    rcases hu : ext.unmarshal lastError.errorMessage with _ | v <;>
      simp [hu, responseWriteCount, isClientResponse]
  case case2 =>
    rename_i hgt hL
    intro hfs
    rw [executeRequestWithRetry.eq_def, dif_pos hgt]
    simp only [hL]
    simp [responseWriteCount, isClientResponse]
  case case3 =>
    rename_i hgt errMsg hsel
    intro hfs
    rw [executeRequestWithRetry.eq_def, dif_neg hgt]
    simp only [hsel]
    simp [responseWriteCount, isClientResponse]
  case case4 =>
    rename_i hgt keyValue hsel errMsg hurl
    intro hfs
    rw [executeRequestWithRetry.eq_def, dif_neg hgt]
    simp only [hsel, hurl]
    simp [responseWriteCount, isClientResponse]
  case case5 =>
    rename_i hgt keyValue hsel upstreamURL hurl reqMsg hreq
    intro hfs
    rw [executeRequestWithRetry.eq_def, dif_neg hgt]
    simp only [hsel, hurl, hreq]
    simp [responseWriteCount, isClientResponse]
  case case6 =>
    rename_i hgt keyValue hsel upstreamURL hurl hreq errMsg hdisp
    intro hfs
    rw [executeRequestWithRetry.eq_def, dif_neg hgt]
    simp only [hsel, hurl, hreq, hdisp, if_true, ite_true]
    simp [responseWriteCount, isClientResponse]
  case case7 =>
    rename_i hgt keyValue hsel upstreamURL hurl hreq ignorable errMsg hdisp hnign nre ih
    intro hfs
    subst hfs
    have hif : ignorable = false := by simpa using hnign
    subst hif
    rw [executeRequestWithRetry.eq_def, dif_neg hgt]
    simp only [hsel, hurl, hreq, hdisp, Bool.false_eq_true, if_false, ite_false]
    unfold_let nre at ih
    exact ih rfl
  case case8 =>
    rename_i hgt keyValue hsel upstreamURL hurl hreq statusCode respBody hdisp hcond nre ih
    intro hfs
    subst hfs
    rw [executeRequestWithRetry.eq_def, dif_neg hgt]
    simp only [hsel, hurl, hreq, hdisp, if_pos hcond]
    unfold_let nre at ih
    exact ih rfl
  case case9 =>
    rename_i hgt keyValue hsel upstreamURL hurl hreq statusCode respBody hdisp hcond vr hr pr hret ctx nre ih
    intro hfs
    subst hfs
    rw [executeRequestWithRetry.eq_def, dif_neg hgt]
    simp only [hsel, hurl, hreq, hdisp, if_neg hcond]
    unfold_let nre ctx pr hr vr at ih hret
    simp only [hret, if_true, ite_true]
    exact ih rfl
  case case10 =>
    rename_i hgt keyValue hsel upstreamURL hurl hreq statusCode respBody hdisp hcond pr sr hsret nre vr hr hnret punctAfter ih
    intro hfs
    exact absurd hfs (by simp)
  case case11 =>
    rename_i hgt keyValue hsel upstreamURL hurl hreq statusCode respBody hdisp hcond pr sr hnsret vr hr hnret
    intro hfs
    exact absurd hfs (by simp)
  case case12 =>
    rename_i hgt keyValue hsel upstreamURL hurl hreq statusCode respBody hdisp hcond vr hr pr hnret hns
    intro hfs
    rw [executeRequestWithRetry.eq_def, dif_neg hgt]
    simp only [hsel, hurl, hreq, hdisp, if_neg hcond]
    unfold_let pr hr vr at hnret
    simp only [Bool.not_eq_true] at hnret hns
    subst hns
    simp only [hnret, Bool.false_eq_true, if_false, ite_false, if_true, ite_true]
    simp [handleNormalResponse, responseWriteCount, isClientResponse]

/-- Claim C2, witness for the amended theorem: a concrete non-streaming
request (no retries allowed, upstream 200) stays within the log and
response budget. -/
theorem c2_witness :
    (executeRequestWithRetry oracleNone envC2 cfgOne settingsAdv (str ("openai"))
        (str ("req")) false 0 [] [] 0).logs.length ≤ 1
  ∧ responseWriteCount (executeRequestWithRetry oracleNone envC2 cfgOne settingsAdv
        (str ("openai")) (str ("req")) false 0 [] [] 0).writes ≤ 1
  ∧ 1 ≤ (executeRequestWithRetry oracleNone envC2 cfgOne settingsAdv (str ("openai"))
        (str ("req")) false 0 [] [] 0).logs.length
      + responseWriteCount (executeRequestWithRetry oracleNone envC2 cfgOne settingsAdv
          (str ("openai")) (str ("req")) false 0 [] [] 0).writes :=
  c2_nonstream_response_log_budget oracleNone envC2 cfgOne settingsAdv
    (str ("openai")) (str ("req")) false 0 [] [] 0 rfl

/-- Concrete environment for the C6 theorems: one streamed chunk with
payload but no terminal marker. -/
def envC6 : Nat → AttemptEnv :=
  fun _ => ⟨Except.ok (str ("k2")), Except.ok (str ("up")), none,
            DispatchResult.httpResponse 200 ([] : Str),
            ⟨true, [str ("data: hello\n\n")], none, none⟩⟩

/-- Claim C6, counterexample: during a streaming attempt whose post-relay
validation fails and triggers a retry, the relay has already written the
streamed chunk to the client — the engine does not write "nothing" for the
failed attempt (the run ends in the exhaustion error, so the attempt was
not accepted). -/
theorem c6_counterexample :
    WriteEvent.chunk (str ("data: hello\n\n"))
        ∈ (executeRequestWithRetry oracleNone envC6 cfgOne settingsAdv (str ("openai"))
            (str ("req")) true 0 [] [] 0).writes
  ∧ (executeRequestWithRetry oracleNone envC6 cfgOne settingsAdv (str ("openai"))
        (str ("req")) true 0 [] [] 0).logs.length = 2 := by
  rw [exec_stream_retry_step oracleNone envC6 cfgOne settingsAdv (str ("openai"))
      (str ("req")) 0 [] [] 0 (str ("k2")) (str ("up")) 200 ([] : Str)
      (by decide) rfl rfl rfl rfl (by decide) rfl (by decide) (by decide)]
  have hsr : handleStreamingResponse settingsAdv (str ("openai")) ((envC6 0).stream)
      = (⟨false, str ("INCOMPLETE_STREAM"),
          str ("Stream ended prematurely without the [DONE] marker."), true⟩,
         str ("data: hello\n\n"), [WriteEvent.chunk (str ("data: hello\n\n"))]) := by decide
  dsimp only
  rw [hsr]
  dsimp only
  constructor
  · exact List.mem_cons_of_mem _ (List.mem_append_left _ (by decide))
  · rw [List.length_cons,
      (exec_exhausted_counts _ _ _ _ _ _ _ _ _ _ _ (by decide)).1]

/-- Claim C6, amended: when the post-relay validation of a streaming attempt
is invalid-and-retryable, the engine marks the credential unhealthy, appends
one attempt record, and retries with the request body of the attempt
unchanged and an empty accumulated continuation text; after the failed
validation it writes nothing further before the retry (the buffered copy is
withheld), although the relay already streamed the bytes of the attempt to
the client in real time. -/
theorem c6_stream_retry_no_carryover (ext : Externals) (env : Nat → AttemptEnv)
    (cfg : EffectiveConfig) (settings : SystemSettings) (channelType : Str)
    (bodyBytes : Str) (retryCount : Nat)
    (retryErrors : List RetryError) (accumulatedText : Str) (punctCount : Nat)
    (keyValue upstreamURL : Str) (statusCode : Nat) (respBody : Str)
    (hle : retryCount ≤ cfg.maxRetries)
    (hsel : (env retryCount).selectKey = Except.ok keyValue)
    (hurl : (env retryCount).buildURL = Except.ok upstreamURL)
    (hreq : (env retryCount).newRequest = none)
    (hdisp : (env retryCount).dispatch = DispatchResult.httpResponse statusCode respBody)
    (hok : ¬(400 ≤ statusCode ∧ statusCode ≠ 404))
    (hadv : settings.enableAdvancedRetry = true)
    (hinv : (handleStreamingResponse settings channelType (env retryCount).stream).1.isValid
        = false)
    (hretry : (handleStreamingResponse settings channelType (env retryCount).stream).1.shouldRetry
        = true) :
    executeRequestWithRetry ext env cfg settings channelType bodyBytes true
        retryCount retryErrors accumulatedText punctCount
      = (let sr := handleStreamingResponse settings channelType (env retryCount).stream
         let r := executeRequestWithRetry ext env cfg settings channelType
           bodyBytes true (retryCount + 1)
           (retryErrors ++
             [⟨500, sr.1.errorMessage, sr.1.errorType ++ str (": ") ++ sr.1.errorMessage,
               keyValue, retryCount + 1, upstreamURL⟩])
           ([] : Str) punctCount
         ⟨WriteEvent.statusLine statusCode :: (sr.2.2 ++ r.writes),
          mkRequestLog statusCode (retryCount + 1) none (some keyValue) true :: r.logs,
          (keyValue, false) :: r.keyMarks, r.dispatches + 1, r.punctFinal⟩) :=
  exec_stream_retry_step ext env cfg settings channelType bodyBytes retryCount
    retryErrors accumulatedText punctCount keyValue upstreamURL statusCode respBody
    hle hsel hurl hreq hdisp hok hadv hinv hretry

/-- Claim C6, witness: the amended theorem applied at a concrete streaming
attempt with non-empty accumulated text; the retry runs with empty
accumulated text and the request records two log entries. -/
theorem c6_witness :
    (executeRequestWithRetry oracleNone envC6 cfgOne settingsAdv (str ("openai"))
        (str ("body")) true 0 [] (str ("acc")) 0).logs.length = 2 := by
  rw [c6_stream_retry_no_carryover oracleNone envC6 cfgOne settingsAdv (str ("openai"))
      (str ("body")) 0 [] (str ("acc")) 0 (str ("k2")) (str ("up")) 200 ([] : Str)
      (by decide) rfl rfl rfl rfl (by decide) rfl (by decide) (by decide)]
  dsimp only
  rw [List.length_cons,
    (exec_exhausted_counts _ _ _ _ _ _ _ _ _ _ _ (by decide)).1]

/-- Claim C7: a non-ignorable transport error, or an HTTP status ≥ 400 other
than 404, marks the credential unhealthy, appends exactly one attempt
record, and advances to the next attempt with the body bytes and the
accumulated continuation text unchanged; a 404 response does not take the
retryable-error branch (with validation disabled it is terminal success). -/
theorem c7_failure_classification (ext : Externals) (env : Nat → AttemptEnv)
    (cfg : EffectiveConfig) (settings : SystemSettings) (channelType : Str)
    (bodyBytes : Str) (isStream : Bool) (retryCount : Nat)
    (retryErrors : List RetryError) (accumulatedText : Str) (punctCount : Nat)
    (keyValue upstreamURL errMsg : Str) (statusCode : Nat) (respBody : Str) :
    (retryCount ≤ cfg.maxRetries →
      (env retryCount).selectKey = Except.ok keyValue →
      (env retryCount).buildURL = Except.ok upstreamURL →
      (env retryCount).newRequest = none →
      (env retryCount).dispatch = DispatchResult.transportErr false errMsg →
      executeRequestWithRetry ext env cfg settings channelType bodyBytes isStream
          retryCount retryErrors accumulatedText punctCount
        = (let r := executeRequestWithRetry ext env cfg settings channelType
             bodyBytes isStream (retryCount + 1)
             (retryErrors ++ [⟨500, errMsg, [], keyValue, retryCount + 1, upstreamURL⟩])
             accumulatedText punctCount
           ⟨r.writes, r.logs, (keyValue, false) :: r.keyMarks, r.dispatches + 1, r.punctFinal⟩))
  ∧ (retryCount ≤ cfg.maxRetries →
      (env retryCount).selectKey = Except.ok keyValue →
      (env retryCount).buildURL = Except.ok upstreamURL →
      (env retryCount).newRequest = none →
      (env retryCount).dispatch = DispatchResult.httpResponse statusCode respBody →
      400 ≤ statusCode → statusCode ≠ 404 →
      executeRequestWithRetry ext env cfg settings channelType bodyBytes isStream
          retryCount retryErrors accumulatedText punctCount
        = (let r := executeRequestWithRetry ext env cfg settings channelType
             bodyBytes isStream (retryCount + 1)
             (retryErrors ++
               [⟨statusCode, respBody, ext.parseUpstreamErr respBody, keyValue,
                 retryCount + 1, upstreamURL⟩])
             accumulatedText punctCount
           ⟨r.writes, r.logs, (keyValue, false) :: r.keyMarks, r.dispatches + 1, r.punctFinal⟩))
  ∧ (retryCount ≤ cfg.maxRetries →
      (env retryCount).selectKey = Except.ok keyValue →
      (env retryCount).buildURL = Except.ok upstreamURL →
      (env retryCount).newRequest = none →
      (env retryCount).dispatch = DispatchResult.httpResponse 404 respBody →
      settings.enableAdvancedRetry = false →
      executeRequestWithRetry ext env cfg settings channelType bodyBytes false
          retryCount retryErrors accumulatedText punctCount
        = ⟨WriteEvent.statusLine 404 ::
             handleNormalResponse ext settings channelType respBody,
           [mkRequestLog 404 (retryCount + 1) none (some keyValue) false],
           [], 1, punctCount⟩) :=
  ⟨fun hle hsel hurl hreq hdisp =>
      exec_transport_retry_step ext env cfg settings channelType bodyBytes isStream
        retryCount retryErrors accumulatedText punctCount keyValue upstreamURL errMsg
        hle hsel hurl hreq hdisp,
   fun hle hsel hurl hreq hdisp hge h404 =>
      exec_http_error_retry_step ext env cfg settings channelType bodyBytes isStream
        retryCount retryErrors accumulatedText punctCount keyValue upstreamURL statusCode
        respBody hle hsel hurl hreq hdisp hge h404,
   fun hle hsel hurl hreq hdisp hadv =>
      exec_success_nonstream_noadv_step ext env cfg settings channelType bodyBytes
        retryCount retryErrors accumulatedText punctCount keyValue upstreamURL 404 respBody
        hle hsel hurl hreq hdisp (by omega) hadv⟩

/-- Concrete environment: every attempt fails with a non-ignorable transport
error. -/
def envC7a : Nat → AttemptEnv :=
  fun _ => ⟨Except.ok (str ("k3")), Except.ok (str ("up")), none,
            DispatchResult.transportErr false (str ("boom")),
            ⟨true, [], none, none⟩⟩

/-- Concrete environment: every attempt gets an HTTP 500 error body. -/
def envC7b : Nat → AttemptEnv :=
  fun _ => ⟨Except.ok (str ("k3")), Except.ok (str ("up")), none,
            DispatchResult.httpResponse 500 (str ("err")),
            ⟨true, [], none, none⟩⟩

/-- Concrete environment: every attempt gets an HTTP 404. -/
def envC7c : Nat → AttemptEnv :=
  fun _ => ⟨Except.ok (str ("k3")), Except.ok (str ("up")), none,
            DispatchResult.httpResponse 404 (str ("nf")),
            ⟨true, [], none, none⟩⟩

/-- Settings with every feature disabled. -/
def settingsOff : SystemSettings := ⟨false, false, false, false, 0⟩

/-- Claim C7, witness: the three classification branches at concrete
attempts — transport failure, HTTP 500, and HTTP 404 (terminal success,
no credential mark, no attempt record). -/
theorem c7_witness :
    (executeRequestWithRetry oracleNone envC7a cfgOne settingsOff (str ("openai"))
        (str ("b")) false 0 [] [] 0
      = (let r := executeRequestWithRetry oracleNone envC7a cfgOne settingsOff (str ("openai"))
           (str ("b")) false 1
           [⟨500, str ("boom"), [], str ("k3"), 1, str ("up")⟩] [] 0
         ⟨r.writes, r.logs, (str ("k3"), false) :: r.keyMarks, r.dispatches + 1, r.punctFinal⟩))
  ∧ (executeRequestWithRetry oracleNone envC7b cfgOne settingsOff (str ("openai"))
        (str ("b")) false 0 [] [] 0
      = (let r := executeRequestWithRetry oracleNone envC7b cfgOne settingsOff (str ("openai"))
           (str ("b")) false 1
           [⟨500, str ("err"), oracleNone.parseUpstreamErr (str ("err")), str ("k3"), 1,
             str ("up")⟩] [] 0
         ⟨r.writes, r.logs, (str ("k3"), false) :: r.keyMarks, r.dispatches + 1, r.punctFinal⟩))
  ∧ (executeRequestWithRetry oracleNone envC7c cfgOne settingsOff (str ("openai"))
        (str ("b")) false 0 [] [] 0
      = ⟨[WriteEvent.statusLine 404, WriteEvent.bodyWrite (str ("nf"))],
         [mkRequestLog 404 1 none (some (str ("k3"))) false], [], 1, 0⟩) :=
  ⟨(c7_failure_classification oracleNone envC7a cfgOne settingsOff (str ("openai"))
      (str ("b")) false 0 [] [] 0 (str ("k3")) (str ("up")) (str ("boom")) 500
      (str ("x"))).1 (by decide) rfl rfl rfl rfl,
   (c7_failure_classification oracleNone envC7b cfgOne settingsOff (str ("openai"))
      (str ("b")) false 0 [] [] 0 (str ("k3")) (str ("up")) (str ("boom")) 500
      (str ("err"))).2.1 (by decide) rfl rfl rfl rfl (by decide) (by decide),
   (c7_failure_classification oracleNone envC7c cfgOne settingsOff (str ("openai"))
      (str ("b")) false 0 [] [] 0 (str ("k3")) (str ("up")) (str ("boom")) 500
      (str ("nf"))).2.2 (by decide) rfl rfl rfl rfl rfl⟩

end GptLoad
